import Mathlib

/-!
cloudfloat: a verification development

A shallow embedding of the reconciliation core of `cloudfloat`, a dynamic-DNS
updater written in Go, together with theorems about it.

* Go strings are modelled as lists of characters (`GoString`); every byte the
  code compares against (`.`, `:`, `/`, digits, hex digits) is ASCII.
* A `net.IP` is a byte slice, modelled as a list of naturals (one per byte).
* `*bool` is `Option Bool`; a `nil` pointer is `none`.
* Go's `int` carries no arithmetic that could overflow here and is `Int`.
* Stateful collaborators (the DNS provider, a retried operation) are explicit
  state transformers.
* Libraries the program calls (Go's `net` and `strings`, avast/retry-go, the
  Cloudflare client) are not part of the repository; the functions reached are
  modelled after their sources or, for the DNS provider, after the
  specification, and each such definition says so.
* Log lines and delays have no effect on the results and are left out.
-/

namespace Cloudfloat

/-- A Go string, as its sequence of characters. -/
abbrev GoString := List Char

/-- A value of Go's `net.IP` (or `net.IPMask`): a slice of bytes. -/
abbrev IP := List Nat

/-! ## Go standard library: package `net` (`ip.go`)

The program calls into Go's `net` package; the functions it reaches are
modelled here after the library's sources as of Go 1.13 to 1.16 (the releases
the program's imports fit), loop for loop. -/

/-- Length in bytes of an IPv4 address. -/
def IPv4len : Nat := 4

/-- Length in bytes of an IPv6 address. -/
def IPv6len : Nat := 16

/-- The twelve bytes that start the IPv4-in-IPv6 form, `::ffff:0:0/96`. -/
def v4InV6Prefix : IP := [0, 0, 0, 0, 0, 0, 0, 0, 0, 0, 0xff, 0xff]

/-- Go `net.IPv4(a, b, c, d)`: the 16-byte form of the address `a.b.c.d`. -/
def IPv4 (a b c d : Nat) : IP := v4InV6Prefix ++ [a, b, c, d]

/-- Go `net.IPv4bcast`, the limited broadcast address. -/
def IPv4bcast : IP := IPv4 255 255 255 255

/-- Go `net.IPv4zero`, all zeros. -/
def IPv4zero : IP := IPv4 0 0 0 0

/-- Go `net.IPv6unspecified`, `::`. -/
def IPv6unspecified : IP := [0, 0, 0, 0, 0, 0, 0, 0, 0, 0, 0, 0, 0, 0, 0, 0]

/-- Go `net.IPv6loopback`, `::1`. -/
def IPv6loopback : IP := [0, 0, 0, 0, 0, 0, 0, 0, 0, 0, 0, 0, 0, 0, 0, 1]

/-- Go `isZeros`: every byte of the slice is zero. -/
def isZeros (p : IP) : Bool := p.all (fun b => b == 0)

/-- Go `allFF`: every byte of the slice is `0xff`. -/
def allFF (p : IP) : Bool := p.all (fun b => b == 0xff)

/-- Go `IP.To4`: the 4-byte form of an IPv4 address, `none` (Go `nil`) when
the slice is not an IPv4 address. -/
def To4 (ip : IP) : Option IP :=
  if ip.length == IPv4len then some ip
  else if ip.length == IPv6len && isZeros (ip.take 10)
      && ip.getD 10 0 == 0xff && ip.getD 11 0 == 0xff then
    some (ip.drop 12)
  else none

/-- Go `IP.Equal`: same address, a 4-byte and a 16-byte form of one IPv4
address being equal. -/
def Equal (ip x : IP) : Bool :=
  if ip.length == x.length then ip == x
  else if ip.length == IPv4len && x.length == IPv6len then
    x.take 12 == v4InV6Prefix && ip == x.drop 12
  else if ip.length == IPv6len && x.length == IPv4len then
    ip.take 12 == v4InV6Prefix && ip.drop 12 == x
  else false

/-- Go `IP.IsUnspecified`. -/
def IsUnspecified (ip : IP) : Bool :=
  Equal ip IPv4zero || Equal ip IPv6unspecified

/-- Go `IP.IsLoopback`. -/
def IsLoopback (ip : IP) : Bool :=
  match To4 ip with
  | some ip4 => ip4.getD 0 0 == 127
  | none => Equal ip IPv6loopback

/-- Go `IP.IsMulticast`. -/
def IsMulticast (ip : IP) : Bool :=
  match To4 ip with
  | some ip4 => ip4.getD 0 0 &&& 0xf0 == 0xe0
  | none => ip.length == IPv6len && ip.getD 0 0 == 0xff

/-- Go `IP.IsLinkLocalUnicast`. -/
def IsLinkLocalUnicast (ip : IP) : Bool :=
  match To4 ip with
  | some ip4 => ip4.getD 0 0 == 169 && ip4.getD 1 0 == 254
  | none => ip.length == IPv6len && ip.getD 0 0 == 0xfe && ip.getD 1 0 &&& 0xc0 == 0x80

/-- Go `IP.IsGlobalUnicast`. -/
def IsGlobalUnicast (ip : IP) : Bool :=
  (ip.length == IPv4len || ip.length == IPv6len) &&
    !Equal ip IPv4bcast &&
    !IsUnspecified ip &&
    !IsLoopback ip &&
    !IsMulticast ip &&
    !IsLinkLocalUnicast ip

/-- Go `net.IPNet`: a network number and its mask. -/
structure IPNet where
  IP : List Nat
  Mask : List Nat
  deriving DecidableEq, Repr

/-- Go `networkNumberAndMask`: the network number and mask of a network in
their shortest common form; a malformed network gives two `nil` (empty)
slices. -/
def networkNumberAndMask (n : IPNet) : IP × IP :=
  let ip? : Option IP :=
    match To4 n.IP with
    | some ip4 => some ip4
    | none => if n.IP.length != IPv6len then none else some n.IP
  match ip? with
  | none => ([], [])
  | some ip =>
    let m := n.Mask
    if m.length == IPv4len then
      if ip.length != IPv4len then ([], []) else (ip, m)
    else if m.length == IPv6len then
      if ip.length == IPv4len then (ip, m.drop 12) else (ip, m)
    else ([], [])

/-- The loop of Go `IPNet.Contains`: the address agrees with the network
number on every masked byte. -/
def maskedEqual : IP → IP → IP → Bool
  | n :: nn, m :: ms, x :: xs => (n &&& m == x &&& m) && maskedEqual nn ms xs
  | _, _, _ => true

/-- Go `IPNet.Contains`. -/
def Contains (n : IPNet) (ip : IP) : Bool :=
  let (nn, m) := networkNumberAndMask n
  let ip := match To4 ip with
    | some x => x
    | none => ip
  if ip.length != nn.length then false else maskedEqual nn m ip

/-! ## Go standard library: package `net` (`parse.go`, `ip.go`): literals -/

/-- Go `big`: the bound past which `dtoi` and `xtoi` give up. -/
def big : Nat := 0xFFFFFF

/-- The loop of Go `dtoi`, at index `i` with `n` accumulated and `rest` the
bytes from `i` on. The result is `(n, i, ok)`. -/
def dtoiLoop : GoString → Nat → Nat → Nat × Nat × Bool
  | [], n, i => if i == 0 then (0, 0, false) else (n, i, true)
  | c :: rest, n, i =>
    if '0' ≤ c ∧ c ≤ '9' then
      let n := n * 10 + (c.toNat - '0'.toNat)
      if n ≥ big then (big, i, false) else dtoiLoop rest n (i + 1)
    else if i == 0 then (0, 0, false) else (n, i, true)

/-- Go `dtoi`: decimal to integer; returns the number, the count of bytes
consumed and a success flag. -/
def dtoi (s : GoString) : Nat × Nat × Bool := dtoiLoop s 0 0

/-- The loop of Go `xtoi`. -/
def xtoiLoop : GoString → Nat → Nat → Nat × Nat × Bool
  | [], n, i => if i == 0 then (0, i, false) else (n, i, true)
  | c :: rest, n, i =>
    let digit? : Option Nat :=
      if '0' ≤ c ∧ c ≤ '9' then some (c.toNat - '0'.toNat)
      else if 'a' ≤ c ∧ c ≤ 'f' then some (c.toNat - 'a'.toNat + 10)
      else if 'A' ≤ c ∧ c ≤ 'F' then some (c.toNat - 'A'.toNat + 10)
      else none
    match digit? with
    | none => if i == 0 then (0, i, false) else (n, i, true)
    | some d =>
      let n := n * 16 + d
      if n ≥ big then (0, i, false) else xtoiLoop rest n (i + 1)

/-- Go `xtoi`: hexadecimal to integer; returns the number, the count of bytes
consumed and a success flag. -/
def xtoi (s : GoString) : Nat × Nat × Bool := xtoiLoop s 0 0

/-- The loop of Go `parseIPv4` over the octet index `i`, with `rem` octets
still to read (`rem = IPv4len - i`); `none` is the early `return nil`. -/
def parseIPv4Loop : Nat → Nat → GoString → IP → Option (GoString × IP)
  | 0, _, s, p => some (s, p)
  | rem + 1, i, s, p =>
    if s.length == 0 then none
    else
      let s? : Option GoString :=
        if i > 0 then
          if s.head? != some '.' then none else some (s.drop 1)
        else some s
      match s? with
      | none => none
      | some s =>
        match dtoi s with
        | (n, c, ok) =>
          if !ok || n > 0xFF then none
          else parseIPv4Loop rem (i + 1) (s.drop c) (p.set i n)

/-- Go `parseIPv4`: a dotted-decimal literal, as a 16-byte address. -/
def parseIPv4 (s : GoString) : Option IP :=
  match parseIPv4Loop IPv4len 0 s [0, 0, 0, 0] with
  | none => none
  | some (s, p) =>
    if s.length != 0 then none
    else some (IPv4 (p.getD 0 0) (p.getD 1 0) (p.getD 2 0) (p.getD 3 0))

/-- The main loop of Go `parseIPv6` ("parsing hex numbers followed by
colon"). The state is the address being filled, the position of the ellipsis
(`-1` for none), the byte index `i` and the rest of the string; `none` is an
early `return nil`, `some` the state when the loop is left. The first argument
bounds the number of iterations; `i` grows by two in every iteration that
continues, so `IPv6len` iterations are never used up while `i < IPv6len`. -/
def parseIPv6Loop : Nat → IP → Int → Nat → GoString → Option (IP × Int × Nat × GoString)
  | 0, ip, ellipsis, i, s => some (ip, ellipsis, i, s)
  | fuel + 1, ip, ellipsis, i, s =>
    if ¬ (i < IPv6len) then some (ip, ellipsis, i, s)
    else
      match xtoi s with
      | (n, c, ok) =>
        if !ok || n > 0xFFFF then none
        else if c < s.length && s.getD c ' ' == '.' then
          if ellipsis < 0 && i != IPv6len - IPv4len then none
          else if i + IPv4len > IPv6len then none
          else
            match parseIPv4 s with
            | none => none
            | some ip4 =>
              let ip := ip.set i (ip4.getD 12 0)
              let ip := ip.set (i + 1) (ip4.getD 13 0)
              let ip := ip.set (i + 2) (ip4.getD 14 0)
              let ip := ip.set (i + 3) (ip4.getD 15 0)
              some (ip, ellipsis, i + IPv4len, [])
        else
          let ip := ip.set i (n >>> 8 % 256)
          let ip := ip.set (i + 1) (n % 256)
          let i := i + 2
          let s := s.drop c
          if s.length == 0 then some (ip, ellipsis, i, s)
          else if s.head? != some ':' || s.length == 1 then none
          else
            let s := s.drop 1
            if s.head? == some ':' then
              if ellipsis ≥ 0 then none
              else
                let ellipsis : Int := i
                let s := s.drop 1
                if s.length == 0 then some (ip, ellipsis, i, s)
                else parseIPv6Loop fuel ip ellipsis i s
            else parseIPv6Loop fuel ip ellipsis i s

/-- First loop of the ellipsis expansion in Go `parseIPv6`:
`for j := i - 1; j >= ellipsis; j-- { ip[j+n] = ip[j] }`; the argument is
`j + 1`. -/
def expandShift (n ellipsis : Nat) : Nat → IP → IP
  | 0, ip => ip
  | j + 1, ip =>
    if j ≥ ellipsis then expandShift n ellipsis j (ip.set (j + n) (ip.getD j 0)) else ip

/-- Second loop of the ellipsis expansion in Go `parseIPv6`:
`for j := ellipsis + n - 1; j >= ellipsis; j-- { ip[j] = 0 }`; the argument is
`j + 1`. -/
def expandZero (ellipsis : Nat) : Nat → IP → IP
  | 0, ip => ip
  | j + 1, ip =>
    if j ≥ ellipsis then expandZero ellipsis j (ip.set j 0) else ip

/-- Go `parseIPv6`: an IPv6 literal (RFC 4291, RFC 5952), possibly ending in a
dotted-decimal IPv4 address. -/
def parseIPv6 (s : GoString) : Option IP :=
  let ip : IP := List.replicate IPv6len 0
  let lead : Bool := s.length ≥ 2 && s.getD 0 ' ' == ':' && s.getD 1 ' ' == ':'
  let ellipsis : Int := if lead then 0 else -1
  let s := if lead then s.drop 2 else s
  if lead && s.length == 0 then some ip
  else
    match parseIPv6Loop IPv6len ip ellipsis 0 s with
    | none => none
    | some (ip, ellipsis, i, s) =>
      if s.length != 0 then none
      else if i < IPv6len then
        if ellipsis < 0 then none
        else
          let n := IPv6len - i
          let ip := expandShift n ellipsis.toNat i ip
          some (expandZero ellipsis.toNat (ellipsis.toNat + n) ip)
      else if ellipsis ≥ 0 then none
      else some ip

/-- The loop of Go `ParseIP`: the first `.` or `:` decides how the whole
string `s` is parsed. -/
def ParseIPLoop : GoString → GoString → Option IP
  | [], _ => none
  | c :: rest, s =>
    if c == '.' then parseIPv4 s
    else if c == ':' then parseIPv6 s
    else ParseIPLoop rest s

/-- Go `net.ParseIP`: an IPv4 or IPv6 literal as a 16-byte address, `none`
(Go `nil`) when the string is neither. -/
def ParseIP (s : GoString) : Option IP := ParseIPLoop s s

/-- The loop of Go `net.CIDRMask` over the bytes of the mask, `n` one-bits
still to place. -/
def CIDRMaskLoop : Nat → Nat → IP
  | 0, _ => []
  | l + 1, n =>
    if n ≥ 8 then 0xff :: CIDRMaskLoop l (n - 8)
    else (0xff - (0xff >>> n)) :: CIDRMaskLoop l 0

/-- Go `net.CIDRMask(ones, bits)`: `ones` one-bits followed by zeros, `bits`
bits in all; `none` (Go `nil`) for a malformed request. -/
def CIDRMask (ones bits : Nat) : Option IP :=
  if bits != 8 * IPv4len && bits != 8 * IPv6len then none
  else if ones > bits then none
  else some (CIDRMaskLoop (bits / 8) ones)

/-- The loop of Go `IP.Mask`: bytewise and. -/
def maskBytes : IP → IP → IP
  | x :: xs, m :: ms => (x &&& m) :: maskBytes xs ms
  | _, _ => []

/-- Go `IP.Mask`: the address masked; `none` (Go `nil`) when the lengths
disagree. -/
def Mask (ip mask : IP) : Option IP :=
  let mask := if mask.length == IPv6len && ip.length == IPv4len && allFF (mask.take 12)
    then mask.drop 12 else mask
  let ip := if mask.length == IPv4len && ip.length == IPv6len && ip.take 12 == v4InV6Prefix
    then ip.drop 12 else ip
  if ip.length != mask.length then none else some (maskBytes ip mask)

/-- Position of the first `/` in a string (Go `IndexByteString(s, '/')`),
`none` for Go's `-1`. -/
def indexSlash : GoString → Option Nat
  | [] => none
  | c :: rest => if c == '/' then some 0 else (indexSlash rest).map (fun k => k + 1)

/-- Go `net.ParseCIDR`, the network it returns (second result); `none` when
Go returns an error and a `nil` network. -/
def ParseCIDR (s : GoString) : Option IPNet :=
  match indexSlash s with
  | none => none
  | some i =>
    let addr := s.take i
    let mask := s.drop (i + 1)
    let (iplen, ip) : Nat × Option IP :=
      match parseIPv4 addr with
      | some ip => (IPv4len, some ip)
      | none => (IPv6len, parseIPv6 addr)
    match dtoi mask with
    | (n, i, ok) =>
      match ip with
      | none => none
      | some ip =>
        if !ok || i != mask.length || n > 8 * iplen then none
        else
          match CIDRMask n (8 * iplen) with
          | none => none
          | some m =>
            match Mask ip m with
            | none => none
            | some masked => some ⟨masked, m⟩

/-! ## Go standard library: `strings.TrimSpace`, `strings.HasSuffix` -/

/-- Go `unicode.IsSpace`: the Latin-1 spaces and the code points with the
Unicode property `White_Space`. -/
def isSpace (r : Char) : Bool :=
  let n := r.toNat
  if n ≤ 0xFF then
    r == '\t' || r == '\n' || n == 0x0B || n == 0x0C || r == '\r' || r == ' '
      || n == 0x85 || n == 0xA0
  else
    n == 0x1680 || (0x2000 ≤ n && n ≤ 0x200a) || n == 0x2028 || n == 0x2029
      || n == 0x202f || n == 0x205f || n == 0x3000

/-- Go `strings.TrimSpace`: the string without its leading and trailing white
space. -/
def TrimSpace (s : GoString) : GoString :=
  ((s.dropWhile isSpace).reverse.dropWhile isSpace).reverse

/-- Go `strings.HasSuffix`. -/
def HasSuffix (s suffix : GoString) : Bool :=
  s.length ≥ suffix.length && s.drop (s.length - suffix.length) == suffix

deriving instance DecidableEq for Except

/-! ## `ip.go` -/

/-- The CIDR literals that `init` parses into `_privateIPBlocks`. -/
def privateCIDRs : List GoString :=
  ["10.0.0.0/8".toList, "172.16.0.0/12".toList, "192.168.0.0/16".toList]

/-- The package variable `_privateIPBlocks` as `init` leaves it: the network
of each CIDR literal, in order. (`init` ignores the error of `ParseCIDR`; all
three literals parse, see `privateIPBlocks_eq`, so no entry is `nil`.) -/
def _privateIPBlocks : List IPNet := privateCIDRs.filterMap ParseCIDR

/-- The function `isPublicIPv4` of `ip.go`. -/
def isPublicIPv4 (ip : IP) : Bool :=
  if (To4 ip).isNone then
    -- Not IPv4.
    false
  else if !IsGlobalUnicast ip then false
  else if _privateIPBlocks.any (fun block => Contains block ip) then false
  else true

/-- The function `shorten` of `ip.go`: at most `length` runes of `s`, with an
ellipsis when something was cut. -/
def shorten (s : GoString) (length : Nat) : GoString :=
  let runes := s
  if runes.length > length then runes.take length ++ "...".toList else s

/-- The errors `getIPAddress` returns, one constructor per message. -/
inductive IPError where
  /-- Message `error querying <server>`, wrapping the transport error. -/
  | query (ipEchoServer : GoString) (cause : GoString)
  /-- Message `failed to parse echo server response as IP: <excerpt>`. -/
  | parse (excerpt : GoString)
  /-- Message `not a public IPv4 address: <addr>`. -/
  | notPublic (addr : GoString)
  deriving DecidableEq, Repr

/-- The function `getIPAddress` of `ip.go`. The HTTP exchange with the echo
server (`_client.Get` and `ioutil.ReadAll`) is outside the program; its outcome
`resp` is either the transport error or the response body. -/
def getIPAddress (ipEchoServer : GoString) (resp : Except GoString GoString) :
    Except IPError IP :=
  match resp with
  | .error err => .error (.query ipEchoServer err)
  | .ok body =>
    let addr := TrimSpace body
    match ParseIP addr with
    | none => .error (.parse (shorten addr 100))
    | some ip =>
      if !isPublicIPv4 ip then .error (.notPublic addr)
      else .ok ip

/-! ## `config.go` -/

/-- The struct `ipConfig`. -/
structure ipConfig where
  EchoServer : GoString
  deriving DecidableEq, Repr

/-- The struct `domainConfig`; the `*bool` field is `none` when unset. -/
structure domainConfig where
  Zone : GoString
  Domain : GoString
  TTL : Int
  Proxied : Option Bool
  deriving DecidableEq, Repr

/-- The struct `dnsConfig`. -/
structure dnsConfig where
  Domains : List domainConfig
  TTL : Int
  Proxied : Option Bool
  deriving DecidableEq, Repr

/-- The struct `loggingConfig`. -/
structure loggingConfig where
  Logfile : GoString
  deriving DecidableEq, Repr

/-- The struct `config`. -/
structure config where
  IP : ipConfig
  DNS : dnsConfig
  Logging : loggingConfig
  deriving DecidableEq, Repr

/-- The function `newConfig`: the defaults a configuration file is read over. -/
def newConfig : config :=
  let proxied := false
  { IP := { EchoServer := [] }
    DNS := { Domains := [], TTL := 60, Proxied := some proxied }
    Logging := { Logfile := [] } }

/-- The function `stripTrailingDot`. -/
def stripTrailingDot (s : GoString) : GoString :=
  if HasSuffix s ".".toList then s.take (s.length - 1) else s

/-- The errors `validateConfig` returns, one constructor per message. -/
inductive ConfigError where
  /-- Message `ip.echo_server must be configured`. -/
  | echoServer
  /-- Message `dns.ttl must be a positive integer`. -/
  | ttl
  /-- Message `dns.proxied must be configured`. -/
  | proxied
  /-- Message `at least one dns.domain required`. -/
  | noDomain
  /-- Message `dns.domain[i].zone must be configured`. -/
  | zone (i : Nat)
  /-- Message `dns.domain[i].domain must be configured`. -/
  | domain (i : Nat)
  /-- Message `<domain> not in zone <zone>, please use FQDN (trailing dot optional)`. -/
  | notInZone (domain zone : GoString)
  deriving DecidableEq, Repr

/-- The body of the loop over `conf.DNS.Domains` in `validateConfig`, for the
entry `d` at index `i`: `none` when the entry passes. -/
def validateDomain (i : Nat) (d : domainConfig) : Option ConfigError :=
  if d.Zone == [] then some (.zone i)
  else if d.Domain == [] then some (.domain i)
  else
    let domain := stripTrailingDot d.Domain
    let zone := stripTrailingDot d.Zone
    if !(domain == zone || HasSuffix domain (".".toList ++ zone)) then
      some (.notInZone d.Domain d.Zone)
    else none

/-- The loop over `conf.DNS.Domains` in `validateConfig`, from index `i` on:
the first error, `none` when every entry passes. -/
def validateDomains : Nat → List domainConfig → Option ConfigError
  | _, [] => none
  | i, d :: ds =>
    match validateDomain i d with
    | some err => some err
    | none => validateDomains (i + 1) ds

/-- The function `validateConfig`: `none` is Go's `nil` error. -/
def validateConfig (conf : config) : Option ConfigError :=
  if conf.IP.EchoServer == [] then some .echoServer
  else if conf.DNS.TTL == 0 then some .ttl
  else if conf.DNS.Proxied == none then
    -- This should be configured with a default in newConfig.
    some .proxied
  else if conf.DNS.Domains.length == 0 then some .noDomain
  else validateDomains 0 conf.DNS.Domains

/-! ## `retry.go` -/

/-- A Go `func() error` acting on a world of type `σ`: the error (`none` for
`nil`) and the world after the call. -/
abbrev Operation (σ ε : Type) := σ → Option ε × σ

/-- The constant `_retryAttempts`. -/
def _retryAttempts : Nat := 3

/-- The loop of `retry.Do` of avast/retry-go with its default options but for
the number of attempts: `for n < attempts`, call the function; on `nil` return
`nil`; on an error record it at index `n`, stop if this was the last attempt,
otherwise sleep and go on with `n + 1`. The delay and its jitter only take
time. The errors of this program are never marked unrecoverable, so the
default `retryIf` always says yes. The first argument counts the attempts that
remain (`attempts - n`), so reaching `0` is the loop condition failing. -/
def retryLoop {σ ε : Type} (retryableFunc : Operation σ ε) (attempts : Nat) :
    Nat → Nat → List (Option ε) → σ → Option (List (Option ε)) × σ
  | 0, _, errorLog, s => (some errorLog, s)
  | rem + 1, n, errorLog, s =>
    if ¬ (n < attempts) then (some errorLog, s)
    else
      match retryableFunc s with
      | (some err, s) =>
        let errorLog := errorLog.set n (some err)
        -- if this is last attempt - don't wait
        if n == attempts - 1 then (some errorLog, s)
        else retryLoop retryableFunc attempts rem (n + 1) errorLog s
      | (none, s) => (none, s)

/-- The function `retry.Do` of avast/retry-go, called with
`retry.Attempts(attempts)`: `none` when an attempt succeeded, otherwise the
log of the errors, one slot per attempt. -/
def retryDo {σ ε : Type} (retryableFunc : Operation σ ε) (attempts : Nat) :
    Operation σ (List (Option ε)) :=
  fun s => retryLoop retryableFunc attempts attempts 0 (List.replicate attempts none) s

/-- The function `retryIt`. The closure it passes to `retry.Do` calls `f`,
logs the error if there is one, and returns what `f` returned. -/
def retryIt {σ ε : Type} (f : Operation σ ε) : Operation σ (List (Option ε)) :=
  retryDo (fun s => match f s with
    | (some err, s) => (some err, s)
    | (none, s) => (none, s)) _retryAttempts

/-- The function `failTrying`: `retryIt`, and a log line when it failed. -/
def failTrying {σ ε : Type} (f : Operation σ ε) : Operation σ (List (Option ε)) :=
  fun s => match retryIt f s with
    | (some err, s) => (some err, s)
    | (none, s) => (none, s)

/-- The function `dieTrying`: `retryIt`, and `log.Fatalf` when it failed,
which ends the process with status 1 (`.error 1`). -/
def dieTrying {σ ε : Type} (f : Operation σ ε) (s : σ) : Except Nat σ :=
  match retryIt f s with
  | (some _, _) => .error 1
  | (none, s) => .ok s

/-- An operation instrumented with a counter of its invocations. -/
def counted {σ ε : Type} (f : Operation σ ε) : Operation (σ × Nat) ε :=
  fun (s, calls) => match f s with
    | (r, s) => (r, (s, calls + 1))

/-! ## `cloudflare.go` -/

/-- The struct `dnsParams`; the field `Type` is `Type_` here. -/
structure dnsParams where
  ZoneName : GoString
  Name : GoString
  Type_ : GoString
  Content : GoString
  TTL : Int
  Proxied : Bool
  deriving DecidableEq, Repr

/-- The fields of `cloudflare.DNSRecord` the program reads or writes (`Type`
is `Type_` here). Record
identifiers are opaque to the program and are numbers here; the zero value of
every field is the field left out of a struct literal. -/
structure DNSRecord where
  ID : Nat := 0
  ZoneID : GoString := []
  Name : GoString := []
  Type_ : GoString := []
  Content : GoString := []
  TTL : Int := 0
  Proxied : Bool := false
  deriving DecidableEq, Repr

/-- The four calls of the Cloudflare client (`_api`) that `dnsCreateOrUpdate`
makes, as transformers of the provider's state `σ`. Errors are messages. -/
structure API (σ : Type) where
  ZoneIDByName : GoString → σ → Except GoString GoString × σ
  DNSRecords : GoString → DNSRecord → σ → Except GoString (List DNSRecord) × σ
  UpdateDNSRecord : GoString → Nat → DNSRecord → Operation σ GoString
  CreateDNSRecord : GoString → DNSRecord → σ → Except GoString DNSRecord × σ

/-- The errors `dnsCreateOrUpdate` returns: the provider's error `cause`,
wrapped with the step that failed. -/
inductive DNSError where
  /-- Message `error querying zone <zone>`. -/
  | queryingZone (zoneName : GoString) (cause : GoString)
  /-- Message `error fetching DNS records (<type> for <name>)`. -/
  | fetching (type name : GoString) (cause : GoString)
  /-- Message `error updating DNS record (<type> for <name>)`. -/
  | updating (type name : GoString) (cause : GoString)
  /-- Message `error creating DNS record (<type> for <name>)`. -/
  | creating (type name : GoString) (cause : GoString)
  deriving DecidableEq, Repr

/-- The function `dnsCreateOrUpdate`, over the client `api`. -/
def dnsCreateOrUpdate {σ : Type} (api : API σ) (p : dnsParams) : Operation σ DNSError :=
  fun s =>
  match api.ZoneIDByName p.ZoneName s with
  | (.error err, s) => (some (.queryingZone p.ZoneName err), s)
  | (.ok zoneID, s) =>
    let r : DNSRecord :=
      { Name := p.Name, Type_ := p.Type_, Content := p.Content, TTL := p.TTL, Proxied := p.Proxied }
    -- Look for an existing record
    match api.DNSRecords zoneID { Name := p.Name, Type_ := p.Type_ } s with
    | (.error err, s) => (some (.fetching p.Type_ p.Name err), s)
    | (.ok records, s) =>
      match records with
      | first :: _ =>
        -- Record exists - find the ID and update it.
        -- If there are multiple matching records we just update the first one.
        match api.UpdateDNSRecord zoneID first.ID r s with
        | (some err, s) => (some (.updating p.Type_ p.Name err), s)
        | (none, s) => (none, s)
      | [] =>
        -- Record doesn't exist - create it.
        match api.CreateDNSRecord zoneID r s with
        | (.error err, s) => (some (.creating p.Type_ p.Name err), s)
        | (.ok _, s) => (none, s)

/-! ## The provider -/

/-- A call received by the provider. -/
inductive Call where
  | ZoneIDByName (zoneName : GoString)
  | DNSRecords (zoneID : GoString) (filter : DNSRecord)
  | UpdateDNSRecord (zoneID : GoString) (recordID : Nat) (r : DNSRecord)
  | CreateDNSRecord (zoneID : GoString) (r : DNSRecord)
  deriving DecidableEq, Repr

/-- A client that records every call it receives, in order, next to the state
of the client it wraps. -/
def traced {σ : Type} (api : API σ) : API (σ × List Call) where
  ZoneIDByName zoneName := fun (s, log) =>
    match api.ZoneIDByName zoneName s with
    | (r, s) => (r, (s, log ++ [.ZoneIDByName zoneName]))
  DNSRecords zoneID filter := fun (s, log) =>
    match api.DNSRecords zoneID filter s with
    | (r, s) => (r, (s, log ++ [.DNSRecords zoneID filter]))
  UpdateDNSRecord zoneID recordID rr := fun (s, log) =>
    match api.UpdateDNSRecord zoneID recordID rr s with
    | (r, s) => (r, (s, log ++ [.UpdateDNSRecord zoneID recordID rr]))
  CreateDNSRecord zoneID rr := fun (s, log) =>
    match api.CreateDNSRecord zoneID rr s with
    | (r, s) => (r, (s, log ++ [.CreateDNSRecord zoneID rr]))

/-- Modelled from the spec: the state of the DNS provider, which the
repository reaches only through the Cloudflare client library. It holds the
zones (name and identifier), the records, and the next unused record
identifier. -/
structure Provider where
  zones : List (GoString × GoString)
  records : List DNSRecord
  nextID : Nat
  deriving DecidableEq, Repr

/-- Modelled from the spec: the record `r` matches the pair (name, type) of a
listing in zone `zoneID` (exact match). -/
def recordMatches (zoneID name type : GoString) (r : DNSRecord) : Bool :=
  r.ZoneID == zoneID && r.Name == name && r.Type_ == type

/-- Modelled from the spec: the provider capability "resolve a zone identifier
from a zone name"; as in the client library, the lookup fails when no zone or
more than one zone has the name. -/
def Provider.ZoneIDByName (zoneName : GoString) (s : Provider) :
    Except GoString GoString × Provider :=
  match s.zones.filter (fun z => z.1 == zoneName) with
  | [] => (.error "zone could not be found".toList, s)
  | [z] => (.ok z.2, s)
  | _ => (.error "ambiguous zone name; an ID must be provided".toList, s)

/-- Modelled from the spec: the provider capability "list existing
address-records matching a (name, type) pair", in the provider's order. -/
def Provider.DNSRecords (zoneID : GoString) (filter : DNSRecord) (s : Provider) :
    Except GoString (List DNSRecord) × Provider :=
  (.ok (s.records.filter (recordMatches zoneID filter.Name filter.Type_)), s)

/-- Modelled from the spec: what an update writes into a record: the
attributes the caller passes; the identifier and the zone stay. -/
def applyUpdate (rr r : DNSRecord) : DNSRecord :=
  { r with Name := rr.Name, Type_ := rr.Type_, Content := rr.Content, TTL := rr.TTL,
           Proxied := rr.Proxied }

/-- Modelled from the spec: the provider capability "update an existing record
by identifier"; it fails when the zone has no record with the identifier. -/
def Provider.UpdateDNSRecord (zoneID : GoString) (recordID : Nat) (rr : DNSRecord)
    (s : Provider) : Option GoString × Provider :=
  if s.records.any (fun r => r.ZoneID == zoneID && r.ID == recordID) then
    (none, { s with records := s.records.map (fun r =>
      if r.ZoneID == zoneID && r.ID == recordID then applyUpdate rr r else r) })
  else (some "record not found".toList, s)

/-- Modelled from the spec: the provider capability "create a new record": the
record gets the next unused identifier and is added after the others. -/
def Provider.CreateDNSRecord (zoneID : GoString) (rr : DNSRecord) (s : Provider) :
    Except GoString DNSRecord × Provider :=
  let r : DNSRecord := { rr with ID := s.nextID, ZoneID := zoneID }
  (.ok r, { s with records := s.records ++ [r], nextID := s.nextID + 1 })

/-- Modelled from the spec: the provider capability as a client. -/
def Provider.api : API Provider where
  ZoneIDByName := Provider.ZoneIDByName
  DNSRecords := Provider.DNSRecords
  UpdateDNSRecord := Provider.UpdateDNSRecord
  CreateDNSRecord := Provider.CreateDNSRecord

/-- Modelled from the spec: a provider state is well formed when every record
identifier in use is below the next unused one and no two records share an
identifier. -/
def Provider.WellFormed (s : Provider) : Prop :=
  (∀ r ∈ s.records, r.ID < s.nextID) ∧ (s.records.map (fun r => r.ID)).Nodup

/-! ## `main.go` -/

/-- The TTL the goroutine of `main` computes for the domain `d`. -/
def effectiveTTL (conf : config) (d : domainConfig) : Int :=
  let ttl := d.TTL
  if ttl == 0 then conf.DNS.TTL else ttl

/-- The proxied flag the goroutine of `main` computes for the domain `d`;
`none` is the panic of dereferencing a `nil` `conf.DNS.Proxied`. -/
def effectiveProxied (conf : config) (d : domainConfig) : Option Bool :=
  match d.Proxied with
  | some b => some b
  | none => conf.DNS.Proxied

/-- The argument of `dnsCreateOrUpdate` in the goroutine of `main` for the
domain `d`, `content` being `ip.String()`; `none` is a panic. -/
def domainParams (conf : config) (content : GoString) (d : domainConfig) : Option dnsParams :=
  let zone := d.Zone
  let domain := d.Domain
  let ttl := effectiveTTL conf d
  match effectiveProxied conf d with
  | none => none
  | some proxied =>
    some { ZoneName := zone, Name := domain, Type_ := "A".toList, Content := content,
           TTL := ttl, Proxied := proxied }

/-- The goroutine `main` starts for the domain `d`: the retried
reconciliation. The result is the error the goroutine sends on `errs`, if any,
and the provider's state afterwards; `none` is a panic. -/
def domainTask {σ : Type} (api : API σ) (conf : config) (content : GoString)
    (d : domainConfig) (s : σ) : Option (Option (List (Option DNSError)) × σ) :=
  match domainParams conf content d with
  | none => none
  | some p => some (failTrying (dnsCreateOrUpdate api p) s)

/-- The goroutines of `main` for the domains `ds`, run one after the other in
the order of `ds`: the outcome of each, in that order, and the provider's state
when all are done (`wg.Wait()`). -/
def runTasks {σ : Type} (api : API σ) (conf : config) (content : GoString) :
    List domainConfig → σ → Option (List (Option (List (Option DNSError))) × σ)
  | [], s => some ([], s)
  | d :: ds, s =>
    match domainTask api conf content d s with
    | none => none
    | some (outcome, s) =>
      match runTasks api conf content ds s with
      | none => none
      | some (outcomes, s) => some (outcome :: outcomes, s)

/-- The contents of the channel `errs` after `wg.Wait()`: the errors of the
tasks that failed. -/
def errsChannel {ε : Type} (outcomes : List (Option ε)) : List ε :=
  outcomes.filterMap id

/-- The final `select` of `main`: exit status 1 when an error can be received
from `errs`, 0 otherwise. -/
def exitStatus {ε : Type} (errs : List ε) : Nat :=
  match errs with
  | _ :: _ => 1
  | [] => 0

/-- The part of `main` under "Set DNS records": run the task of every
configured domain, wait for all, and pick the exit status. -/
def setDNSRecords {σ : Type} (api : API σ) (conf : config) (content : GoString) (s : σ) :
    Option (Nat × List (Option (List (Option DNSError))) × σ) :=
  match runTasks api conf content conf.DNS.Domains s with
  | none => none
  | some (outcomes, s) => some (exitStatus (errsChannel outcomes), outcomes, s)

/-! ## Statement-side vocabulary -/

/-- The IPv4 addresses `a.b.c.d` the validation policy names as not public:
unspecified (0.0.0.0), loopback (127.0.0.0/8), link-local (169.254.0.0/16),
multicast (224.0.0.0/4), and the private ranges 10.0.0.0/8, 172.16.0.0/12 and
192.168.0.0/16. Used in statements only. -/
abbrev NonPublicOctets (a b c d : Nat) : Prop :=
  (a = 0 ∧ b = 0 ∧ c = 0 ∧ d = 0) ∨ a = 127 ∨ (a = 169 ∧ b = 254) ∨ (224 ≤ a ∧ a ≤ 239) ∨
    a = 10 ∨ (a = 172 ∧ 16 ≤ b ∧ b ≤ 31) ∨ (a = 192 ∧ b = 168)

/-- A string with one trailing dot removed, if it has one. Used in statements
only. -/
abbrev withoutTrailingDot (s : GoString) : GoString :=
  if s.getLast? = some '.' then s.dropLast else s

/-- The zone-suffix rule on an entry: one trailing dot removed from each, its
domain equals its zone or ends with a dot followed by the zone. Used in
statements only. -/
abbrev InZone (d : domainConfig) : Prop :=
  withoutTrailingDot d.Domain = withoutTrailingDot d.Zone ∨
    ('.' :: withoutTrailingDot d.Zone) <:+ withoutTrailingDot d.Domain

/-- An entry that has a zone and a domain and meets the zone-suffix rule. Used
in statements only. -/
abbrev GoodEntry (d : domainConfig) : Prop :=
  d.Zone ≠ [] ∧ d.Domain ≠ [] ∧ InZone d

/-- The configuration `conf` with the list of domains `ds` in place of its
own. Used in statements only. -/
def withDomains (conf : config) (ds : List domainConfig) : config :=
  { IP := conf.IP, Logging := conf.Logging,
    DNS := { Domains := ds, TTL := conf.DNS.TTL, Proxied := conf.DNS.Proxied } }

/-- The state of the world after the first `n` invocations of the operation
`f` from the state `s`. Used in statements only. -/
def stateAfter {σ ε : Type} (f : Operation σ ε) (s : σ) : Nat → σ
  | 0 => s
  | n + 1 => (f (stateAfter f s n)).2

/-- The error (`none` for `nil`) of invocation number `n + 1` of the operation
`f` from the state `s`. Used in statements only. -/
def outcomeAt {σ ε : Type} (f : Operation σ ε) (s : σ) (n : Nat) : Option ε :=
  (f (stateAfter f s n)).1

/-- The record `dnsCreateOrUpdate` builds from its argument and passes to the
provider's create and update calls. Used in statements only. -/
def desiredRecord (p : dnsParams) : DNSRecord :=
  { Name := p.Name, Type_ := p.Type_, Content := p.Content, TTL := p.TTL, Proxied := p.Proxied }

/-- The filter `dnsCreateOrUpdate` passes to the provider's listing call. Used
in statements only. -/
def listFilter (p : dnsParams) : DNSRecord :=
  { Name := p.Name, Type_ := p.Type_ }

/-- The records of a provider state whose name and type are those of `p`, in
whatever zone. Used in statements only. -/
def matchingRecords (p : dnsParams) (s : Provider) : List DNSRecord :=
  s.records.filter (fun r => r.Name == p.Name && r.Type_ == p.Type_)

/-- The run of the tasks of the domains `ds`, over a client that records its
calls, from the provider state and call log `st` to `final`, with the outcomes
`outcomes`: for every domain in turn, whatever the outcomes before it, the
argument `p` that `main` builds for it is passed to the retried reconciliation
(`failTrying` of `dnsCreateOrUpdate`), which runs from the state and log left
by the domain before it (from `st` for the first), yields the outcome recorded
for the domain, and adds calls to the log, the first of which is the lookup of
the domain's zone; the next domain goes on from there. Used in statements
only. -/
def TasksRun {σ : Type} (api : API σ) (conf : config) (content : GoString) :
    List domainConfig → σ × List Call → List (Option (List (Option DNSError))) →
      σ × List Call → Prop
  | [], st, outcomes, final => outcomes = [] ∧ final = st
  | d :: ds, st, outcomes, final =>
    ∃ (p : dnsParams) (o : Option (List (Option DNSError))) (st1 : σ × List Call)
        (extra : List Call) (rest : List (Option (List (Option DNSError)))),
      domainParams conf content d = some p ∧
      p.ZoneName = d.Zone ∧ p.Name = d.Domain ∧
      failTrying (dnsCreateOrUpdate (traced api) p) st = (o, st1) ∧
      st1.2 = st.2 ++ Call.ZoneIDByName d.Zone :: extra ∧
      outcomes = o :: rest ∧
      TasksRun api conf content ds st1 rest final

/-! ## Example data -/

/-- Example: the reconciliation of `ddns.example.com` to 93.184.216.34. -/
def exampleParams : dnsParams :=
  { ZoneName := "example.com".toList, Name := "ddns.example.com".toList, Type_ := "A".toList,
    Content := "93.184.216.34".toList, TTL := 60, Proxied := false }

/-- Example: a provider with the zone `example.com` and no record. -/
def emptyProvider : Provider :=
  { zones := [("example.com".toList, "z1".toList)], records := [], nextID := 0 }

/-- Example: a provider with the zone `example.com`, two records for
`ddns.example.com` (duplicates) and one for `www.example.com`. -/
def duplicateProvider : Provider :=
  { zones := [("example.com".toList, "z1".toList)]
    records :=
      [{ ID := 0, ZoneID := "z1".toList, Name := "ddns.example.com".toList, Type_ := "A".toList,
         Content := "198.51.100.1".toList, TTL := 1, Proxied := true },
       { ID := 1, ZoneID := "z1".toList, Name := "ddns.example.com".toList, Type_ := "A".toList,
         Content := "198.51.100.2".toList, TTL := 120, Proxied := false },
       { ID := 2, ZoneID := "z1".toList, Name := "www.example.com".toList, Type_ := "A".toList,
         Content := "198.51.100.3".toList, TTL := 300, Proxied := false }]
    nextID := 3 }

/-- Example: a configuration with two domains, the first in a zone the example
providers do not have, the second in `example.com`. -/
def twoDomainConfig : config :=
  { IP := { EchoServer := "https://ifconfig.co/".toList }
    DNS :=
      { Domains :=
          [{ Zone := "missing.org".toList, Domain := "ddns.missing.org".toList, TTL := 0,
             Proxied := none },
           { Zone := "example.com".toList, Domain := "ddns.example.com".toList, TTL := 0,
             Proxied := none }]
        TTL := 60
        Proxied := some false }
    Logging := { Logfile := [] } }

/-- Example: a configuration with two domains in the one zone `example.com`. -/
def sharedZoneConfig : config :=
  { IP := { EchoServer := "https://ifconfig.co/".toList }
    DNS :=
      { Domains :=
          [{ Zone := "example.com".toList, Domain := "a.example.com".toList, TTL := 0,
             Proxied := none },
           { Zone := "example.com".toList, Domain := "b.example.com".toList, TTL := 120,
             Proxied := some true }]
        TTL := 60
        Proxied := some false }
    Logging := { Logfile := [] } }

/-! ## Theorems: IP validation -/

/-- All three CIDR literals of `init` parse: the private blocks are 10/8,
172.16/12 and 192.168/16 with their 4-byte masks. -/
theorem privateIPBlocks_eq :
    _privateIPBlocks =
      [⟨[10, 0, 0, 0], [255, 0, 0, 0]⟩, ⟨[172, 16, 0, 0], [255, 240, 0, 0]⟩,
       ⟨[192, 168, 0, 0], [255, 255, 0, 0]⟩] := by
  decide

theorem To4_four (a b c d : Nat) : To4 [a, b, c, d] = some [a, b, c, d] := rfl

theorem To4_IPv4 (a b c d : Nat) : To4 (IPv4 a b c d) = some [a, b, c, d] := rfl

set_option maxRecDepth 100000 in
theorem land_255 : ∀ a, a < 256 → a &&& 255 = a := by decide

set_option maxRecDepth 100000 in
theorem land_240_eq_224 : ∀ a, a < 256 → (a &&& 240 = 224 ↔ 224 ≤ a ∧ a ≤ 239) := by decide

set_option maxRecDepth 100000 in
theorem land_240_eq_16 : ∀ a, a < 256 → (a &&& 240 = 16 ↔ 16 ≤ a ∧ a ≤ 31) := by decide

theorem land_240_eq_16' (a : Nat) (h : a < 256) : (16 = a &&& 240 ↔ 16 ≤ a ∧ a ≤ 31) := by
  rw [eq_comm]; exact land_240_eq_16 a h

theorem land_lits :
    10 &&& 255 = 10 ∧ 172 &&& 255 = 172 ∧ 192 &&& 255 = 192 ∧ 168 &&& 255 = 168 ∧
      16 &&& 240 = 16 := by
  decide

/-- What `isPublicIPv4` computes on a 4-byte address, octet by octet. -/
theorem isPublicIPv4_four_iff (a b c d : Nat) (ha : a < 256) (hb : b < 256) :
    isPublicIPv4 [a, b, c, d] = true ↔
      ¬ (a = 255 ∧ b = 255 ∧ c = 255 ∧ d = 255) ∧ ¬ (a = 0 ∧ b = 0 ∧ c = 0 ∧ d = 0) ∧
      a ≠ 127 ∧ ¬ (224 ≤ a ∧ a ≤ 239) ∧ ¬ (a = 169 ∧ b = 254) ∧
      a ≠ 10 ∧ ¬ (a = 172 ∧ 16 ≤ b ∧ b ≤ 31) ∧ ¬ (a = 192 ∧ b = 168) := by
  simp [isPublicIPv4, To4_four, privateIPBlocks_eq, IsGlobalUnicast, IsUnspecified, IsLoopback,
    IsMulticast, IsLinkLocalUnicast, Equal, Contains, networkNumberAndMask, maskedEqual,
    IPv4len, IPv6len, IPv4bcast, IPv4zero, IPv6unspecified, IPv4, v4InV6Prefix, land_255 a ha,
    land_255 b hb, land_240_eq_224 a ha]
  obtain ⟨h1, h2, h3, h4, h5⟩ := land_lits
  rw [h1, h2, h3, h4, h5, land_240_eq_16' b hb]
  clear h1 h2 h3 h4 h5
  constructor
  · rintro ⟨⟨⟨⟨⟨h1, h2⟩, h3⟩, h4⟩, h5⟩, h6, h7, h8⟩
    refine ⟨?_, ?_, ?_, ?_, ?_, ?_, ?_, ?_⟩ <;> omega
  · rintro ⟨h1, h2, h3, h4, h5, h6, h7, h8⟩
    refine ⟨⟨⟨⟨⟨?_, ?_⟩, ?_⟩, ?_⟩, ?_⟩, ?_, ?_, ?_⟩ <;> omega

/-- The 16-byte form of an IPv4 address is judged like its 4-byte form. -/
theorem isPublicIPv4_IPv4 (a b c d : Nat) :
    isPublicIPv4 (IPv4 a b c d) = isPublicIPv4 [a, b, c, d] := by
  simp [isPublicIPv4, To4, isZeros, privateIPBlocks_eq, IsGlobalUnicast, IsUnspecified, IsLoopback,
    IsMulticast, IsLinkLocalUnicast, Equal, Contains, networkNumberAndMask, maskedEqual,
    IPv4len, IPv6len, IPv4bcast, IPv4zero, IPv6unspecified, IPv4, v4InV6Prefix]

/-- What `getIPAddress` returns for a body that parses. -/
theorem getIPAddress_of_parse (server body : GoString) (ip : IP)
    (h : ParseIP (TrimSpace body) = some ip) :
    getIPAddress server (.ok body) =
      if isPublicIPv4 ip then .ok ip else .error (.notPublic (TrimSpace body)) := by
  cases hp : isPublicIPv4 ip <;> simp [getIPAddress, h, hp]

/-- C1: every four-octet IPv4 address that is unspecified, loopback,
link-local, multicast or inside 10.0.0.0/8, 172.16.0.0/12 or 192.168.0.0/16 is
rejected by `isPublicIPv4`, in its 4-byte and in its 16-byte form, and a
response body that parses to it makes `getIPAddress` fail with the `not a
public IPv4 address` error. -/
theorem isPublicIPv4_rejects_non_public (a b c d : Nat)
    (ha : a < 256) (hb : b < 256) (_hc : c < 256) (_hd : d < 256)
    (h : NonPublicOctets a b c d) :
    isPublicIPv4 [a, b, c, d] = false ∧ isPublicIPv4 (IPv4 a b c d) = false ∧
      ∀ server body : GoString, ParseIP (TrimSpace body) = some (IPv4 a b c d) →
        getIPAddress server (.ok body) = .error (.notPublic (TrimSpace body)) := by
  have h4 : isPublicIPv4 [a, b, c, d] = false := by
    rw [Bool.eq_false_iff]
    intro hp
    rw [isPublicIPv4_four_iff a b c d ha hb] at hp
    obtain ⟨-, h2, h3, h4, h5, h6, h7, h8⟩ := hp
    unfold NonPublicOctets at h
    rcases h with h | h | h | h | h | h | h
    · exact h2 h
    · exact h3 h
    · exact h5 h
    · exact h4 h
    · exact h6 h
    · exact h7 h
    · exact h8 h
  have h16 : isPublicIPv4 (IPv4 a b c d) = false := by rw [isPublicIPv4_IPv4, h4]
  refine ⟨h4, h16, ?_⟩
  intro server body hparse
  rw [getIPAddress_of_parse server body _ hparse, h16]
  rfl

/-- Witnesses of C1: 10.1.2.3, 127.0.0.1 and 169.254.0.1 are rejected. -/
theorem isPublicIPv4_rejects_non_public_witness :
    (isPublicIPv4 [10, 1, 2, 3] = false ∧ isPublicIPv4 (IPv4 10 1 2 3) = false ∧
      ∀ server body : GoString, ParseIP (TrimSpace body) = some (IPv4 10 1 2 3) →
        getIPAddress server (.ok body) = .error (.notPublic (TrimSpace body))) ∧
    isPublicIPv4 (IPv4 127 0 0 1) = false ∧ isPublicIPv4 (IPv4 169 254 0 1) = false :=
  ⟨isPublicIPv4_rejects_non_public 10 1 2 3 (by decide) (by decide) (by decide) (by decide)
      (by decide),
    (isPublicIPv4_rejects_non_public 127 0 0 1 (by decide) (by decide) (by decide) (by decide)
      (by decide)).2.1,
    (isPublicIPv4_rejects_non_public 169 254 0 1 (by decide) (by decide) (by decide) (by decide)
      (by decide)).2.1⟩

/-- C2, counterexample: the limited broadcast address 255.255.255.255 is in
none of the classes the claim excludes, and `isPublicIPv4` rejects it, in both
forms; the body `255.255.255.255` makes `getIPAddress` fail. -/
theorem isPublicIPv4_broadcast_rejected :
    ¬ NonPublicOctets 255 255 255 255 ∧
      isPublicIPv4 [255, 255, 255, 255] = false ∧
      isPublicIPv4 (IPv4 255 255 255 255) = false ∧
      getIPAddress [] (.ok "255.255.255.255".toList) =
        .error (.notPublic "255.255.255.255".toList) := by
  decide

/-- C2, amended: every four-octet IPv4 address that is not unspecified,
loopback, link-local or multicast, lies in none of the three private ranges
and is not the limited broadcast address 255.255.255.255 is accepted by
`isPublicIPv4`, in its 4-byte and in its 16-byte form, and a response body that
parses to it makes `getIPAddress` return that address. -/
theorem isPublicIPv4_accepts_public (a b c d : Nat)
    (ha : a < 256) (hb : b < 256) (_hc : c < 256) (_hd : d < 256)
    (h : ¬ NonPublicOctets a b c d)
    (hbcast : ¬ (a = 255 ∧ b = 255 ∧ c = 255 ∧ d = 255)) :
    isPublicIPv4 [a, b, c, d] = true ∧ isPublicIPv4 (IPv4 a b c d) = true ∧
      ∀ server body : GoString, ParseIP (TrimSpace body) = some (IPv4 a b c d) →
        getIPAddress server (.ok body) = .ok (IPv4 a b c d) := by
  have h4 : isPublicIPv4 [a, b, c, d] = true := by
    rw [isPublicIPv4_four_iff a b c d ha hb]
    unfold NonPublicOctets at h
    refine ⟨hbcast, ?_, ?_, ?_, ?_, ?_, ?_, ?_⟩ <;> intro hx <;> apply h <;> simp [hx]
  have h16 : isPublicIPv4 (IPv4 a b c d) = true := by rw [isPublicIPv4_IPv4, h4]
  refine ⟨h4, h16, ?_⟩
  intro server body hparse
  rw [getIPAddress_of_parse server body _ hparse, h16]
  rfl

/-- Witness of C2 as amended: 93.184.216.34 is accepted, and so is the
response body that spells it. -/
theorem isPublicIPv4_accepts_public_witness :
    (isPublicIPv4 [93, 184, 216, 34] = true ∧ isPublicIPv4 (IPv4 93 184 216 34) = true ∧
      ∀ server body : GoString, ParseIP (TrimSpace body) = some (IPv4 93 184 216 34) →
        getIPAddress server (.ok body) = .ok (IPv4 93 184 216 34)) ∧
    getIPAddress [] (.ok "93.184.216.34\n".toList) = .ok (IPv4 93 184 216 34) :=
  have h := isPublicIPv4_accepts_public 93 184 216 34 (by decide) (by decide) (by decide)
    (by decide) (by decide) (by decide)
  ⟨h, h.2.2 [] "93.184.216.34\n".toList (by decide)⟩

/-- C9, counterexample: the IPv4-mapped IPv6 literal `::ffff:93.184.216.34`
parses to the 16-byte form of 93.184.216.34, which has a 4-byte form, and
`getIPAddress` returns it without an error. -/
theorem getIPAddress_accepts_mapped_literal :
    ParseIP "::ffff:93.184.216.34".toList = some (IPv4 93 184 216 34) ∧
      getIPAddress [] (.ok "::ffff:93.184.216.34".toList) = .ok (IPv4 93 184 216 34) := by
  decide

/-- C9, amended: a response body that parses to an address with no 4-byte
form (`To4` is `nil`: an IPv6 address outside the IPv4-mapped range
`::ffff:0:0/96`) makes `getIPAddress` return the `not a public IPv4 address`
error; and whatever address `getIPAddress` returns has a 4-byte form and
passes `isPublicIPv4`. -/
theorem getIPAddress_rejects_native_IPv6 (server body : GoString) (ip : IP)
    (hparse : ParseIP (TrimSpace body) = some ip) (h6 : To4 ip = none) :
    getIPAddress server (.ok body) = .error (.notPublic (TrimSpace body)) ∧
      ∀ (resp : Except GoString GoString) (ip' : IP), getIPAddress server resp = .ok ip' →
        (To4 ip').isSome = true ∧ isPublicIPv4 ip' = true := by
  constructor
  · have hp : isPublicIPv4 ip = false := by simp [isPublicIPv4, h6]
    rw [getIPAddress_of_parse server body ip hparse, hp]
    rfl
  · intro resp ip' hok
    cases resp with
    | error e => simp [getIPAddress] at hok
    | ok b =>
      cases hparse' : ParseIP (TrimSpace b) with
      | none => simp [getIPAddress, hparse'] at hok
      | some x =>
        rw [getIPAddress_of_parse server b x hparse'] at hok
        cases hx : isPublicIPv4 x with
        | false => simp [hx] at hok
        | true =>
          simp [hx] at hok
          subst hok
          refine ⟨?_, hx⟩
          cases h4 : To4 x with
          | none => simp [isPublicIPv4, h4] at hx
          | some y => rfl

/-- Witness of C9 as amended: the native IPv6 literal `2001:db8::1` is
rejected. -/
theorem getIPAddress_rejects_native_IPv6_witness :
    getIPAddress [] (.ok "2001:db8::1\n".toList) = .error (.notPublic "2001:db8::1".toList) :=
  (getIPAddress_rejects_native_IPv6 [] "2001:db8::1\n".toList
    [0x20, 0x01, 0x0d, 0xb8, 0, 0, 0, 0, 0, 0, 0, 0, 0, 0, 0, 1] (by decide) (by decide)).1

/-! ## Theorems: configuration -/

theorem HasSuffix_iff (s suffix : GoString) : HasSuffix s suffix = true ↔ suffix <:+ s := by
  unfold HasSuffix
  rw [List.suffix_iff_eq_drop]
  constructor
  · intro h
    simp only [Bool.and_eq_true, beq_iff_eq] at h
    exact h.2.symm
  · intro h
    have hl : suffix.length ≤ s.length := by
      have := congrArg List.length h
      rw [List.length_drop] at this
      omega
    simp only [Bool.and_eq_true, beq_iff_eq, decide_eq_true_eq, ge_iff_le]
    exact ⟨hl, h.symm⟩

theorem stripTrailingDot_eq (s : GoString) : stripTrailingDot s = withoutTrailingDot s := by
  unfold stripTrailingDot withoutTrailingDot
  have hiff : HasSuffix s ".".toList = true ↔ s.getLast? = some '.' := by
    rw [HasSuffix_iff, List.getLast?_eq_some_iff]
    constructor
    · rintro ⟨t, ht⟩
      exact ⟨t, ht.symm⟩
    · rintro ⟨t, ht⟩
      exact ⟨t, ht.symm⟩
  by_cases h : s.getLast? = some '.'
  · rw [if_pos (hiff.mpr h), if_pos h, List.dropLast_eq_take]
  · rw [if_neg (fun hc => h (hiff.mp hc)), if_neg h]

theorem stripTrailingDot_append_dot (s : GoString) : stripTrailingDot (s ++ ['.']) = s := by
  rw [stripTrailingDot_eq]
  unfold withoutTrailingDot
  rw [if_pos (List.getLast?_concat s), List.dropLast_concat]

theorem stripTrailingDot_of_no_dot (s : GoString) (h : s.getLast? ≠ some '.') :
    stripTrailingDot s = s := by
  rw [stripTrailingDot_eq]
  unfold withoutTrailingDot
  rw [if_neg h]

/-- When the loop body of `validateConfig` accepts an entry. -/
theorem validateDomain_eq_none_iff (i : Nat) (d : domainConfig) :
    validateDomain i d = none ↔
      d.Zone ≠ [] ∧ d.Domain ≠ [] ∧
        (stripTrailingDot d.Domain = stripTrailingDot d.Zone ∨
          ('.' :: stripTrailingDot d.Zone) <:+ stripTrailingDot d.Domain) := by
  unfold validateDomain
  by_cases hz : d.Zone = []
  · simp [hz]
  · by_cases hd : d.Domain = []
    · simp [hz, hd]
    · have hs := HasSuffix_iff (stripTrailingDot d.Domain) ('.' :: stripTrailingDot d.Zone)
      by_cases h1 : stripTrailingDot d.Domain = stripTrailingDot d.Zone
      · simp [hz, hd, h1]
      · by_cases h2 : HasSuffix (stripTrailingDot d.Domain) ('.' :: stripTrailingDot d.Zone) = true
        · simp [hz, hd, h1, h2, hs.mp h2]
        · have h3 : ¬ ('.' :: stripTrailingDot d.Zone) <:+ stripTrailingDot d.Domain :=
            fun hc => h2 (hs.mpr hc)
          simp [hz, hd, h1, h2, h3]

/-- The loop of `validateConfig` passes exactly when every entry passes. -/
theorem validateDomains_eq_none_iff (ds : List domainConfig) (i : Nat) :
    validateDomains i ds = none ↔ ∀ d ∈ ds, validateDomain 0 d = none := by
  induction ds generalizing i with
  | nil => simp [validateDomains]
  | cons d ds ih =>
    have hi : validateDomain i d = none ↔ validateDomain 0 d = none := by
      rw [validateDomain_eq_none_iff, validateDomain_eq_none_iff]
    unfold validateDomains
    cases h : validateDomain i d with
    | some e =>
      have h0 : validateDomain 0 d ≠ none := fun hc => by
        rw [hi.mpr hc] at h
        exact Option.noConfusion h
      simp [h0]
    | none => simp [ih (i + 1), hi.mp h]

/-- When `validateConfig` accepts a configuration. -/
theorem validateConfig_eq_none_iff (conf : config) :
    validateConfig conf = none ↔
      conf.IP.EchoServer ≠ [] ∧ conf.DNS.TTL ≠ 0 ∧ conf.DNS.Proxied ≠ none ∧
        conf.DNS.Domains ≠ [] ∧ ∀ d ∈ conf.DNS.Domains, validateDomain 0 d = none := by
  unfold validateConfig
  by_cases h1 : conf.IP.EchoServer = []
  · simp [h1]
  · by_cases h2 : conf.DNS.TTL = 0
    · simp [h1, h2]
    · by_cases h3 : conf.DNS.Proxied = none
      · simp [h1, h2, h3]
      · by_cases h4 : conf.DNS.Domains = []
        · simp [h1, h2, h3, h4]
        · simp [h1, h2, h3, h4, validateDomains_eq_none_iff]

/-- The loop body of `validateConfig` accepts exactly the good entries. -/
theorem validateDomain_eq_none_iff_good (i : Nat) (d : domainConfig) :
    validateDomain i d = none ↔ GoodEntry d := by
  rw [validateDomain_eq_none_iff, stripTrailingDot_eq, stripTrailingDot_eq]

/-- The error of the loop body of `validateConfig` on an entry that has a zone
and a domain and breaks the zone-suffix rule. -/
theorem validateDomain_notInZone (i : Nat) (d : domainConfig)
    (hz : d.Zone ≠ []) (hd : d.Domain ≠ []) (hnot : ¬ InZone d) :
    validateDomain i d = some (.notInZone d.Domain d.Zone) := by
  have hcond : (stripTrailingDot d.Domain == stripTrailingDot d.Zone ||
      HasSuffix (stripTrailingDot d.Domain) (".".toList ++ stripTrailingDot d.Zone)) = false := by
    rw [Bool.eq_false_iff]
    intro h
    rw [Bool.or_eq_true, beq_iff_eq] at h
    apply hnot
    rcases h with h | h
    · left
      rw [← stripTrailingDot_eq, ← stripTrailingDot_eq]
      exact h
    · right
      rw [← stripTrailingDot_eq, ← stripTrailingDot_eq]
      exact (HasSuffix_iff _ _).mp h
  unfold validateDomain
  simp only [beq_iff_eq, hz, hd, if_false, hcond, Bool.not_false, if_true]

/-- The loop of `validateConfig` over entries that pass and then an entry `d`:
what it returns is decided at `d`, at its index, or after it. -/
theorem validateDomains_append (pre : List domainConfig) (d : domainConfig)
    (post : List domainConfig) (hpre : ∀ e ∈ pre, GoodEntry e) :
    ∀ i, validateDomains i (pre ++ d :: post) =
      match validateDomain (i + pre.length) d with
      | some err => some err
      | none => validateDomains (i + pre.length + 1) post := by
  induction pre with
  | nil =>
    intro i
    rfl
  | cons e pre ih =>
    intro i
    have he : validateDomain i e = none :=
      (validateDomain_eq_none_iff_good i e).mpr (hpre e (List.mem_cons_self _ _))
    have ih' := ih (fun x hx => hpre x (List.mem_cons_of_mem _ hx)) (i + 1)
    have h1 : i + 1 + pre.length = i + (pre.length + 1) := by omega
    rw [h1] at ih'
    simp only [List.cons_append, validateDomains, he, List.length_cons]
    exact ih'

/-- C5: an entry `d` with non-empty zone and domain is accepted by the loop
body of `validateConfig` exactly when, one trailing dot removed from each, the
domain equals the zone or ends with a dot followed by the zone (`InZone d`).
In `validateConfig` itself: a configuration that is otherwise in order and
holds `d` at any position among entries that are all good is accepted exactly
when `InZone d`; if the entries before `d` are good and `d` breaks the rule,
`validateConfig` returns the not-in-zone error for `d`, whatever follows; a
configuration that is otherwise in order is accepted exactly when every entry
is good. Appending a dot to the domain, or to the zone, of `d` when it does
not end in one changes neither the verdict on the entry nor the acceptance of a
configuration that holds `d` at any position. -/
theorem zone_suffix_validation (i : Nat) (d : domainConfig)
    (hz : d.Zone ≠ []) (hd : d.Domain ≠ []) :
    (validateDomain i d = none ↔
      (withoutTrailingDot d.Domain = withoutTrailingDot d.Zone ∨
        ('.' :: withoutTrailingDot d.Zone) <:+ withoutTrailingDot d.Domain)) ∧
    (∀ conf : config, conf.IP.EchoServer ≠ [] → conf.DNS.TTL ≠ 0 → conf.DNS.Proxied ≠ none →
      conf.DNS.Domains = [d] →
      (validateConfig conf = none ↔
        (withoutTrailingDot d.Domain = withoutTrailingDot d.Zone ∨
          ('.' :: withoutTrailingDot d.Zone) <:+ withoutTrailingDot d.Domain))) ∧
    (d.Domain.getLast? ≠ some '.' →
      (validateDomain i { d with Domain := d.Domain ++ ['.'] } = none ↔
        validateDomain i d = none)) ∧
    (d.Zone.getLast? ≠ some '.' →
      (validateDomain i { d with Zone := d.Zone ++ ['.'] } = none ↔
        validateDomain i d = none)) ∧
    (∀ (conf : config) (pre post : List domainConfig),
      conf.IP.EchoServer ≠ [] → conf.DNS.TTL ≠ 0 → conf.DNS.Proxied ≠ none →
      conf.DNS.Domains = pre ++ d :: post →
      ((∀ e ∈ pre, GoodEntry e) → (∀ e ∈ post, GoodEntry e) →
        (validateConfig conf = none ↔ InZone d)) ∧
      ((∀ e ∈ pre, GoodEntry e) → ¬ InZone d →
        validateConfig conf = some (.notInZone d.Domain d.Zone)) ∧
      (d.Domain.getLast? ≠ some '.' →
        (validateConfig
            (withDomains conf (pre ++ { d with Domain := d.Domain ++ ['.'] } :: post)) = none ↔
          validateConfig conf = none)) ∧
      (d.Zone.getLast? ≠ some '.' →
        (validateConfig
            (withDomains conf (pre ++ { d with Zone := d.Zone ++ ['.'] } :: post)) = none ↔
          validateConfig conf = none))) ∧
    (∀ conf : config, conf.IP.EchoServer ≠ [] → conf.DNS.TTL ≠ 0 → conf.DNS.Proxied ≠ none →
      (validateConfig conf = none ↔
        conf.DNS.Domains ≠ [] ∧ ∀ e ∈ conf.DNS.Domains, GoodEntry e)) := by
  have key : ∀ j, validateDomain j d = none ↔ InZone d := by
    intro j
    rw [validateDomain_eq_none_iff_good]
    exact ⟨fun h => h.2.2, fun h => ⟨hz, hd, h⟩⟩
  have hdomain : d.Domain.getLast? ≠ some '.' → ∀ j,
      (validateDomain j { d with Domain := d.Domain ++ ['.'] } = none ↔
        validateDomain j d = none) := by
    intro hdot j
    rw [validateDomain_eq_none_iff, validateDomain_eq_none_iff]
    simp only [stripTrailingDot_append_dot, stripTrailingDot_of_no_dot d.Domain hdot]
    simp [hz, hd]
  have hzone : d.Zone.getLast? ≠ some '.' → ∀ j,
      (validateDomain j { d with Zone := d.Zone ++ ['.'] } = none ↔
        validateDomain j d = none) := by
    intro hdot j
    rw [validateDomain_eq_none_iff, validateDomain_eq_none_iff]
    simp only [stripTrailingDot_append_dot, stripTrailingDot_of_no_dot d.Zone hdot]
    simp [hz, hd]
  have hall : ∀ conf : config, conf.IP.EchoServer ≠ [] → conf.DNS.TTL ≠ 0 →
      conf.DNS.Proxied ≠ none →
      (validateConfig conf = none ↔
        conf.DNS.Domains ≠ [] ∧ ∀ e ∈ conf.DNS.Domains, GoodEntry e) := by
    intro conf h1 h2 h3
    rw [validateConfig_eq_none_iff]
    constructor
    · rintro ⟨-, -, -, h4, h5⟩
      exact ⟨h4, fun e he => (validateDomain_eq_none_iff_good 0 e).mp (h5 e he)⟩
    · rintro ⟨h4, h5⟩
      exact ⟨h1, h2, h3, h4, fun e he => (validateDomain_eq_none_iff_good 0 e).mpr (h5 e he)⟩
  -- replacing `d` by an entry with the same verdict keeps the acceptance
  have hswap : ∀ (conf : config) (pre post : List domainConfig) (d' : domainConfig),
      conf.DNS.Domains = pre ++ d :: post →
      (validateDomain 0 d' = none ↔ validateDomain 0 d = none) →
      (validateConfig (withDomains conf (pre ++ d' :: post)) = none ↔
        validateConfig conf = none) := by
    intro conf pre post d' hds hv
    rw [validateConfig_eq_none_iff, validateConfig_eq_none_iff, hds]
    simp only [withDomains, ne_eq, List.append_eq_nil, List.cons_ne_nil, and_false,
      not_false_eq_true, true_and, List.mem_append, List.mem_cons]
    constructor
    · rintro ⟨h1, h2, h3, h5⟩
      refine ⟨h1, h2, h3, ?_⟩
      intro e he
      rcases he with he | he | he
      · exact h5 e (Or.inl he)
      · subst he
        exact hv.mp (h5 d' (Or.inr (Or.inl rfl)))
      · exact h5 e (Or.inr (Or.inr he))
    · rintro ⟨h1, h2, h3, h5⟩
      refine ⟨h1, h2, h3, ?_⟩
      intro e he
      rcases he with he | he | he
      · exact h5 e (Or.inl he)
      · subst he
        exact hv.mpr (h5 d (Or.inr (Or.inl rfl)))
      · exact h5 e (Or.inr (Or.inr he))
  refine ⟨key i, ?_, fun h => hdomain h i, fun h => hzone h i, ?_, hall⟩
  · intro conf h1 h2 h3 h4
    constructor
    · intro h
      exact (key 0).mp (((validateConfig_eq_none_iff conf).mp h).2.2.2.2 d (by rw [h4]; simp))
    · intro h
      refine (validateConfig_eq_none_iff conf).mpr ⟨h1, h2, h3, by rw [h4]; simp, ?_⟩
      intro e he
      rw [h4, List.mem_singleton] at he
      subst he
      exact (key 0).mpr h
  · intro conf pre post h1 h2 h3 hds
    refine ⟨?_, ?_, ?_, ?_⟩
    · intro hpre hpost
      rw [hall conf h1 h2 h3, hds]
      constructor
      · rintro ⟨-, h5⟩
        exact (h5 d (List.mem_append_right _ (List.mem_cons_self _ _))).2.2
      · intro hin
        refine ⟨by simp, ?_⟩
        intro e he
        rcases List.mem_append.mp he with he | he
        · exact hpre e he
        · rcases List.mem_cons.mp he with he | he
          · subst he
            exact ⟨hz, hd, hin⟩
          · exact hpost e he
    · intro hpre hnot
      have hlen : ¬ ((pre ++ d :: post).length = 0) := by simp
      unfold validateConfig
      simp only [beq_iff_eq, h1, h2, h3, if_false, hds, hlen]
      rw [validateDomains_append pre d post hpre 0, validateDomain_notInZone _ d hz hd hnot]
    · intro hdot
      exact hswap conf pre post _ hds (hdomain hdot 0)
    · intro hdot
      exact hswap conf pre post _ hds (hzone hdot 0)

/-- Witnesses of C5. The entry `ddns.example.com` is in zone `example.com`,
with or without trailing dots; `other.com` and `badexample.com` are not. A
configuration with the entries `ddns.example.com` and `www.example.com.` is
accepted; with `ddns.example.com` followed by `other.com`, or by
`badexample.com` and a good entry, `validateConfig` returns the not-in-zone
error. -/
theorem zone_suffix_validation_witness :
    validateDomain 0 ⟨"example.com".toList, "ddns.example.com".toList, 0, none⟩ = none ∧
    validateDomain 0 ⟨"example.com.".toList, "ddns.example.com".toList, 0, none⟩ = none ∧
    validateDomain 0 ⟨"example.com".toList, "ddns.example.com.".toList, 0, none⟩ = none ∧
    validateDomain 0 ⟨"example.com".toList, "other.com".toList, 0, none⟩ =
      some (.notInZone "other.com".toList "example.com".toList) ∧
    validateDomain 0 ⟨"example.com".toList, "badexample.com".toList, 0, none⟩ =
      some (.notInZone "badexample.com".toList "example.com".toList) ∧
    validateConfig (withDomains twoDomainConfig
      [⟨"example.com".toList, "ddns.example.com".toList, 0, none⟩,
       ⟨"example.com".toList, "www.example.com.".toList, 0, none⟩]) = none ∧
    validateConfig (withDomains twoDomainConfig
      [⟨"example.com".toList, "ddns.example.com".toList, 0, none⟩,
       ⟨"example.com".toList, "other.com".toList, 0, none⟩]) =
      some (.notInZone "other.com".toList "example.com".toList) ∧
    validateConfig (withDomains twoDomainConfig
      [⟨"example.com".toList, "ddns.example.com".toList, 0, none⟩,
       ⟨"example.com".toList, "badexample.com".toList, 0, none⟩,
       ⟨"example.com".toList, "www.example.com".toList, 0, none⟩]) =
      some (.notInZone "badexample.com".toList "example.com".toList) :=
  have h := zone_suffix_validation 0 ⟨"example.com".toList, "ddns.example.com".toList, 0, none⟩
    (by decide) (by decide)
  have h0 : validateDomain 0 ⟨"example.com".toList, "ddns.example.com".toList, 0, none⟩ = none :=
    h.1.mpr (by decide)
  have hw := zone_suffix_validation 0 ⟨"example.com".toList, "www.example.com.".toList, 0, none⟩
    (by decide) (by decide)
  have ho := zone_suffix_validation 0 ⟨"example.com".toList, "other.com".toList, 0, none⟩
    (by decide) (by decide)
  have hb := zone_suffix_validation 0 ⟨"example.com".toList, "badexample.com".toList, 0, none⟩
    (by decide) (by decide)
  ⟨h0, (h.2.2.2.1 (by decide)).mpr h0, (h.2.2.1 (by decide)).mpr h0, by decide, by decide,
    ((hw.2.2.2.2.1 _ [⟨"example.com".toList, "ddns.example.com".toList, 0, none⟩] []
        (by decide) (by decide) (by decide) rfl).1
      (by decide) (by decide)).mpr (by decide),
    (ho.2.2.2.2.1 _ [⟨"example.com".toList, "ddns.example.com".toList, 0, none⟩] []
        (by decide) (by decide) (by decide) rfl).2.1 (by decide) (by decide),
    (hb.2.2.2.2.1 _ [⟨"example.com".toList, "ddns.example.com".toList, 0, none⟩]
        [⟨"example.com".toList, "www.example.com".toList, 0, none⟩]
        (by decide) (by decide) (by decide) rfl).2.1 (by decide) (by decide)⟩

/-- With the global default `dns.proxied` set, the goroutine of `main` has an
argument for `dnsCreateOrUpdate`, with the proxied flag resolved. -/
theorem proxied_override_resolution_aux (conf : config) (content : GoString)
    (d : domainConfig) (g : Bool) (hg : conf.DNS.Proxied = some g) :
    ∃ p : dnsParams,
      domainParams conf content d = some p ∧
      (∀ {σ : Type} (api : API σ) (s : σ),
        domainTask api conf content d s = some (failTrying (dnsCreateOrUpdate api p) s)) ∧
      (∀ b, d.Proxied = some b → p.Proxied = b) ∧
      (d.Proxied = none → p.Proxied = g) := by
  cases hd : d.Proxied with
  | some b =>
    refine ⟨{ ZoneName := d.Zone, Name := d.Domain, Type_ := "A".toList, Content := content,
              TTL := effectiveTTL conf d, Proxied := b }, ?_, ?_, ?_, ?_⟩
    · simp only [domainParams, effectiveProxied, hd]
    · intro σ api s
      simp only [domainTask, domainParams, effectiveProxied, hd]
    · intro b' hb'
      exact Option.some.inj hb'
    · intro hc
      exact Option.noConfusion hc
  | none =>
    refine ⟨{ ZoneName := d.Zone, Name := d.Domain, Type_ := "A".toList, Content := content,
              TTL := effectiveTTL conf d, Proxied := g }, ?_, ?_, ?_, ?_⟩
    · simp only [domainParams, effectiveProxied, hd, hg]
    · intro σ api s
      simp only [domainTask, domainParams, effectiveProxied, hd, hg]
    · intro b' hb'
      exact Option.noConfusion hb'
    · intro _
      rfl

/-- C6: with the global default `dns.proxied` set to `g`, the goroutine of
`main` calls `dnsCreateOrUpdate` for the domain `d` with a proxied flag equal
to the domain's override whenever the override is set (also when it is set to
`false`), and equal to `g` when the override is unset. -/
theorem proxied_override_resolution {σ : Type} (api : API σ) (conf : config)
    (content : GoString) (d : domainConfig) (s : σ) (g : Bool)
    (hg : conf.DNS.Proxied = some g) :
    ∃ p : dnsParams,
      domainParams conf content d = some p ∧
      domainTask api conf content d s = some (failTrying (dnsCreateOrUpdate api p) s) ∧
      (∀ b, d.Proxied = some b → p.Proxied = b) ∧
      (d.Proxied = none → p.Proxied = g) := by
  obtain ⟨p, h1, h2, h3, h4⟩ := proxied_override_resolution_aux conf content d g hg
  exact ⟨p, h1, h2 api s, h3, h4⟩

/-- Witness of C6: an explicit `proxied = false` on the domain, with a global
default of `true`, resolves to `false`. -/
theorem proxied_override_resolution_witness :
    ∃ p : dnsParams,
      domainParams
        { IP := ⟨"https://ifconfig.co/".toList⟩,
          DNS := { Domains := [], TTL := 60, Proxied := some true },
          Logging := ⟨[]⟩ }
        "93.184.216.34".toList
        ⟨"example.com".toList, "ddns.example.com".toList, 0, some false⟩ = some p ∧
      p.Proxied = false :=
  have ⟨p, h1, _, h3, _⟩ := proxied_override_resolution Provider.api
    { IP := ⟨"https://ifconfig.co/".toList⟩,
      DNS := { Domains := [], TTL := 60, Proxied := some true },
      Logging := ⟨[]⟩ }
    "93.184.216.34".toList
    ⟨"example.com".toList, "ddns.example.com".toList, 0, some false⟩
    ⟨[], [], 0⟩ true rfl
  ⟨p, h1, h3 false rfl⟩

/-- C10, the code at the failing input: `validateConfig` accepts a
configuration whose `dns.ttl` is `-1` and whose only domain has the TTL
override `-5`, and the TTL passed to `dnsCreateOrUpdate` for that domain is
`-5`; without the override it is `-1`. -/
theorem validateConfig_accepts_negative_ttl :
    validateConfig
      { IP := ⟨"https://ifconfig.co/".toList⟩,
        DNS := { Domains := [⟨"example.com".toList, "ddns.example.com".toList, -5, none⟩],
                 TTL := -1, Proxied := some false },
        Logging := ⟨[]⟩ } = none ∧
    (domainParams
      { IP := ⟨"https://ifconfig.co/".toList⟩,
        DNS := { Domains := [⟨"example.com".toList, "ddns.example.com".toList, -5, none⟩],
                 TTL := -1, Proxied := some false },
        Logging := ⟨[]⟩ }
      "93.184.216.34".toList
      ⟨"example.com".toList, "ddns.example.com".toList, -5, none⟩).map (fun p => p.TTL)
      = some (-5) ∧
    validateConfig
      { IP := ⟨"https://ifconfig.co/".toList⟩,
        DNS := { Domains := [⟨"example.com".toList, "ddns.example.com".toList, 0, none⟩],
                 TTL := -1, Proxied := some false },
        Logging := ⟨[]⟩ } = none ∧
    (domainParams
      { IP := ⟨"https://ifconfig.co/".toList⟩,
        DNS := { Domains := [⟨"example.com".toList, "ddns.example.com".toList, 0, none⟩],
                 TTL := -1, Proxied := some false },
        Logging := ⟨[]⟩ }
      "93.184.216.34".toList
      ⟨"example.com".toList, "ddns.example.com".toList, 0, none⟩).map (fun p => p.TTL)
      = some (-1) := by
  decide

/-! ## Theorems: retry -/

/-- The closure `retryIt` hands to `retry.Do` returns what `f` returns. -/
theorem retryIt_eq {σ ε : Type} (f : Operation σ ε) : retryIt f = retryDo f _retryAttempts := by
  have hf : (fun s => match f s with
      | (some err, s) => (some err, s)
      | (none, s) => (none, s) : Operation σ ε) = f := by
    funext s
    rcases h : f s with ⟨_ | e, s'⟩ <;> rfl
  unfold retryIt
  rw [hf]

theorem failTrying_eq {σ ε : Type} (f : Operation σ ε) : failTrying f = retryIt f := by
  funext s
  unfold failTrying
  rcases h : retryIt f s with ⟨_ | e, s'⟩ <;> rfl

/-- One step of the retry loop at attempt `n` when the call fails and more
attempts remain. -/
theorem counted_apply {σ ε : Type} (f : Operation σ ε) (s : σ) (c : Nat) :
    counted f (s, c) = ((f s).1, ((f s).2, c + 1)) := rfl

/-- C7: an operation `f` that fails on each of its first three invocations is
invoked by `retryIt` exactly 3 times, and `retryIt`, `failTrying` and
`dieTrying` then report failure; an operation that first succeeds on its
`k`-th invocation, `1 ≤ k ≤ 3`, is invoked exactly `k` times and `retryIt`
returns no error. The count is the counter of the instrumented operation
`counted f`, started at 0. -/
theorem retryIt_attempts {σ ε : Type} (f : Operation σ ε) (s : σ) :
    ((∀ n, n < 3 → outcomeAt f s n ≠ none) →
      retryIt (counted f) (s, 0) =
          (some [outcomeAt f s 0, outcomeAt f s 1, outcomeAt f s 2], (stateAfter f s 3, 3)) ∧
        failTrying (counted f) (s, 0) =
          (some [outcomeAt f s 0, outcomeAt f s 1, outcomeAt f s 2], (stateAfter f s 3, 3)) ∧
        dieTrying (counted f) (s, 0) = .error 1) ∧
    (∀ k, 1 ≤ k → k ≤ 3 → (∀ n, n < k - 1 → outcomeAt f s n ≠ none) →
      outcomeAt f s (k - 1) = none →
      retryIt (counted f) (s, 0) = (none, (stateAfter f s k, k)) ∧
        failTrying (counted f) (s, 0) = (none, (stateAfter f s k, k)) ∧
        dieTrying (counted f) (s, 0) = .ok (stateAfter f s k, k)) := by
  constructor
  · intro hfail
    have h0 := hfail 0 (by decide)
    have h1 := hfail 1 (by decide)
    have h2 := hfail 2 (by decide)
    obtain ⟨e0, he0⟩ := Option.ne_none_iff_exists'.mp h0
    obtain ⟨e1, he1⟩ := Option.ne_none_iff_exists'.mp h1
    obtain ⟨e2, he2⟩ := Option.ne_none_iff_exists'.mp h2
    have hr : retryIt (counted f) (s, 0) =
        (some [outcomeAt f s 0, outcomeAt f s 1, outcomeAt f s 2], (stateAfter f s 3, 3)) := by
      simp only [outcomeAt, stateAfter] at he0 he1 he2
      simp [retryIt_eq, retryDo, retryLoop, _retryAttempts, counted_apply, outcomeAt, stateAfter,
        he0, he1, he2]
    refine ⟨hr, ?_, ?_⟩
    · rw [failTrying_eq, hr]
    · simp [dieTrying, hr]
  · intro k hk1 hk3 hfail hok
    have hr : retryIt (counted f) (s, 0) = (none, (stateAfter f s k, k)) := by
      interval_cases k
      · simp only [outcomeAt, stateAfter] at hok
        simp [retryIt_eq, retryDo, retryLoop, _retryAttempts, counted_apply, stateAfter, hok]
      · obtain ⟨e0, he0⟩ := Option.ne_none_iff_exists'.mp (hfail 0 (by decide))
        simp only [outcomeAt, stateAfter] at hok he0
        simp [retryIt_eq, retryDo, retryLoop, _retryAttempts, counted_apply, stateAfter, hok, he0]
      · obtain ⟨e0, he0⟩ := Option.ne_none_iff_exists'.mp (hfail 0 (by decide))
        obtain ⟨e1, he1⟩ := Option.ne_none_iff_exists'.mp (hfail 1 (by decide))
        simp only [outcomeAt, stateAfter] at hok he0 he1
        simp [retryIt_eq, retryDo, retryLoop, _retryAttempts, counted_apply, stateAfter, hok, he0,
          he1]
    refine ⟨hr, ?_, ?_⟩
    · rw [failTrying_eq, hr]
    · simp [dieTrying, hr]

/-- Witnesses of C7: an operation that always fails is invoked three times and
`retryIt` fails; an operation that fails once and then succeeds is invoked
twice and `retryIt` succeeds. -/
theorem retryIt_attempts_witness :
    retryIt (counted (fun s : Nat => ((some s : Option Nat), s + 1))) (0, 0) =
        (some [some 0, some 1, some 2], (3, 3)) ∧
      retryIt (counted (fun s : Nat => (if s < 1 then some s else none, s + 1))) (0, 0) =
        (none, (2, 2)) :=
  ⟨((retryIt_attempts (fun s : Nat => ((some s : Option Nat), s + 1)) 0).1
      (fun n _ => by simp [outcomeAt])).1,
    ((retryIt_attempts (fun s : Nat => (if s < 1 then some s else none, s + 1)) 0).2 2
      (by decide) (by decide) (fun n hn => by
        have : n = 0 := by omega
        subst this
        simp [outcomeAt, stateAfter]) (by simp [outcomeAt, stateAfter])).1⟩

/-! ## Theorems: reconciliation -/

/-- What `dnsCreateOrUpdate` does, over a client that records its calls, when
the zone lookup and the listing succeed and a record is listed: the lookup,
the listing, and one update of the first record listed. -/
theorem dnsCreateOrUpdate_update {σ : Type} (api : API σ) (p : dnsParams) (s s1 s2 : σ)
    (log : List Call) (zoneID : GoString) (first : DNSRecord) (rest : List DNSRecord)
    (hz : api.ZoneIDByName p.ZoneName s = (.ok zoneID, s1))
    (hl : api.DNSRecords zoneID (listFilter p) s1 = (.ok (first :: rest), s2)) :
    dnsCreateOrUpdate (traced api) p (s, log) =
      (((api.UpdateDNSRecord zoneID first.ID (desiredRecord p) s2).1).map
          (DNSError.updating p.Type_ p.Name),
        ((api.UpdateDNSRecord zoneID first.ID (desiredRecord p) s2).2,
          log ++ [.ZoneIDByName p.ZoneName, .DNSRecords zoneID (listFilter p),
            .UpdateDNSRecord zoneID first.ID (desiredRecord p)])) := by
  unfold listFilter at hl
  rcases hu : api.UpdateDNSRecord zoneID first.ID (desiredRecord p) s2 with ⟨_ | e, s3⟩ <;>
    (unfold desiredRecord at hu
     simp [dnsCreateOrUpdate, traced, hz, hl, hu, listFilter, desiredRecord])

/-- What `dnsCreateOrUpdate` does, over a client that records its calls, when
the zone lookup and the listing succeed and nothing is listed: the lookup, the
listing, and one create. -/
theorem dnsCreateOrUpdate_create {σ : Type} (api : API σ) (p : dnsParams) (s s1 s2 : σ)
    (log : List Call) (zoneID : GoString)
    (hz : api.ZoneIDByName p.ZoneName s = (.ok zoneID, s1))
    (hl : api.DNSRecords zoneID (listFilter p) s1 = (.ok [], s2)) :
    dnsCreateOrUpdate (traced api) p (s, log) =
      ((match (api.CreateDNSRecord zoneID (desiredRecord p) s2).1 with
          | .error err => some (DNSError.creating p.Type_ p.Name err)
          | .ok _ => none),
        ((api.CreateDNSRecord zoneID (desiredRecord p) s2).2,
          log ++ [.ZoneIDByName p.ZoneName, .DNSRecords zoneID (listFilter p),
            .CreateDNSRecord zoneID (desiredRecord p)])) := by
  unfold listFilter at hl
  rcases hc : api.CreateDNSRecord zoneID (desiredRecord p) s2 with ⟨e | r, s3⟩ <;>
    (unfold desiredRecord at hc
     simp [dnsCreateOrUpdate, traced, hz, hl, hc, listFilter, desiredRecord])

/-- The in-memory zone lookup leaves the provider's state alone. -/
theorem Provider.ZoneIDByName_state (zoneName : GoString) (s : Provider) :
    Provider.ZoneIDByName zoneName s = ((Provider.ZoneIDByName zoneName s).1, s) := by
  unfold Provider.ZoneIDByName
  split <;> rfl

/-- The in-memory zone lookup only reads the zones. -/
theorem Provider.ZoneIDByName_zones (zoneName : GoString) (s s' : Provider)
    (h : s'.zones = s.zones) :
    (Provider.ZoneIDByName zoneName s').1 = (Provider.ZoneIDByName zoneName s).1 := by
  unfold Provider.ZoneIDByName
  rw [h]
  split <;> rfl

/-- In a well-formed provider state a record is known by its identifier. -/
theorem Provider.WellFormed.eq_of_ID {s : Provider} (hwf : s.WellFormed) {r r' : DNSRecord}
    (hr : r ∈ s.records) (hr' : r' ∈ s.records) (h : r.ID = r'.ID) : r = r' :=
  List.inj_on_of_nodup_map hwf.2 hr hr' h

/-- What the in-memory update does in a well-formed state when the record
addressed is `first`, a record of the zone: `first` is rewritten, nothing else
is touched. -/
theorem Provider.UpdateDNSRecord_first (s : Provider) (hwf : s.WellFormed)
    (zoneID : GoString) (first rr : DNSRecord) (hmem : first ∈ s.records)
    (hzone : first.ZoneID = zoneID) :
    Provider.UpdateDNSRecord zoneID first.ID rr s =
      (none, { zones := s.zones, nextID := s.nextID,
               records := s.records.map (fun r => if r = first then applyUpdate rr first else r) }) := by
  unfold Provider.UpdateDNSRecord
  have hany : s.records.any (fun r => r.ZoneID == zoneID && r.ID == first.ID) = true := by
    rw [List.any_eq_true]
    exact ⟨first, hmem, by simp [hzone]⟩
  rw [if_pos hany]
  congr 2
  apply List.map_congr_left
  intro r hr
  by_cases h : r = first
  · subst h
    simp [hzone]
  · have hid : r.ID ≠ first.ID := fun hc => h (hwf.eq_of_ID hr hmem hc)
    simp [h, hid]

/-- The zone lookup of the in-memory client, as the client's call. -/
theorem Provider.api_ZoneIDByName (zoneName zoneID : GoString) (s : Provider)
    (hz : (Provider.ZoneIDByName zoneName s).1 = .ok zoneID) :
    Provider.api.ZoneIDByName zoneName s = (.ok zoneID, s) := by
  show Provider.ZoneIDByName zoneName s = _
  rw [Provider.ZoneIDByName_state, hz]

/-- C4: when the zone lookup and the listing succeed, `dnsCreateOrUpdate`
makes, after them, exactly one more call: if records were listed, one update
addressed to the identifier of the first listed record and carrying the name,
type, content, TTL and proxied flag of `p`, and no create; if none was listed,
one create carrying them, and no update. Over the in-memory provider in a
well-formed state the update rewrites the first listed record and leaves every
other record, the other duplicates included, as it was, and the create adds
one record after the others. -/
theorem dnsCreateOrUpdate_update_first_or_create {σ : Type} (api : API σ) (p : dnsParams)
    (s s1 s2 : σ) (zoneID : GoString) (records : List DNSRecord)
    (hz : api.ZoneIDByName p.ZoneName s = (.ok zoneID, s1))
    (hl : api.DNSRecords zoneID (listFilter p) s1 = (.ok records, s2)) :
    (∀ first rest, records = first :: rest →
      (dnsCreateOrUpdate (traced api) p (s, [])).2.2 =
        [.ZoneIDByName p.ZoneName, .DNSRecords zoneID (listFilter p),
          .UpdateDNSRecord zoneID first.ID (desiredRecord p)]) ∧
    (records = [] →
      (dnsCreateOrUpdate (traced api) p (s, [])).2.2 =
        [.ZoneIDByName p.ZoneName, .DNSRecords zoneID (listFilter p),
          .CreateDNSRecord zoneID (desiredRecord p)]) ∧
    (∀ (ps : Provider) (z : GoString), ps.WellFormed →
      (Provider.ZoneIDByName p.ZoneName ps).1 = .ok z →
      (∀ first rest, ps.records.filter (recordMatches z p.Name p.Type_) = first :: rest →
        ∃ ps' : Provider,
          dnsCreateOrUpdate (traced Provider.api) p (ps, []) =
            (none, (ps', [.ZoneIDByName p.ZoneName, .DNSRecords z (listFilter p),
              .UpdateDNSRecord z first.ID (desiredRecord p)])) ∧
          ps'.records =
            ps.records.map (fun r => if r = first then applyUpdate (desiredRecord p) first else r) ∧
          ps'.records.length = ps.records.length ∧
          (∀ r ∈ ps.records, r ≠ first → r ∈ ps'.records) ∧
          applyUpdate (desiredRecord p) first ∈ ps'.records ∧
          (applyUpdate (desiredRecord p) first).ID = first.ID ∧
          (applyUpdate (desiredRecord p) first).Content = p.Content ∧
          (applyUpdate (desiredRecord p) first).TTL = p.TTL ∧
          (applyUpdate (desiredRecord p) first).Proxied = p.Proxied) ∧
      (ps.records.filter (recordMatches z p.Name p.Type_) = [] →
        ∃ ps' : Provider,
          dnsCreateOrUpdate (traced Provider.api) p (ps, []) =
            (none, (ps', [.ZoneIDByName p.ZoneName, .DNSRecords z (listFilter p),
              .CreateDNSRecord z (desiredRecord p)])) ∧
          ps'.records =
            ps.records ++ [{ desiredRecord p with ID := ps.nextID, ZoneID := z }])) := by
  refine ⟨?_, ?_, ?_⟩
  · intro first rest hr
    subst hr
    rw [dnsCreateOrUpdate_update api p s s1 s2 [] zoneID first rest hz hl]
    rfl
  · intro hr
    subst hr
    rw [dnsCreateOrUpdate_create api p s s1 s2 [] zoneID hz hl]
    rfl
  · intro ps z hwf hzp
    have hz' := Provider.api_ZoneIDByName p.ZoneName z ps hzp
    constructor
    · intro first rest hf
      have hl' : Provider.api.DNSRecords z (listFilter p) ps = (.ok (first :: rest), ps) := by
        show Provider.DNSRecords z (listFilter p) ps = _
        unfold Provider.DNSRecords listFilter
        rw [hf]
      have hmem : first ∈ ps.records.filter (recordMatches z p.Name p.Type_) := by
        rw [hf]
        exact List.mem_cons_self _ _
      rw [List.mem_filter] at hmem
      have hzone : first.ZoneID = z := by
        have := hmem.2
        simp only [recordMatches, Bool.and_eq_true, beq_iff_eq] at this
        exact this.1.1
      have hupd : Provider.api.UpdateDNSRecord z first.ID (desiredRecord p) ps = _ :=
        Provider.UpdateDNSRecord_first ps hwf z first (desiredRecord p) hmem.1 hzone
      refine ⟨{ zones := ps.zones, nextID := ps.nextID,
                records := ps.records.map
                  (fun r => if r = first then applyUpdate (desiredRecord p) first else r) },
        ?_, rfl, ?_, ?_, ?_, rfl, rfl, rfl, rfl⟩
      · rw [dnsCreateOrUpdate_update Provider.api p ps ps ps [] z first rest hz' hl', hupd]
        rfl
      · simp
      · intro r hr hne
        rw [List.mem_map]
        exact ⟨r, hr, by rw [if_neg hne]⟩
      · rw [List.mem_map]
        exact ⟨first, hmem.1, by rw [if_pos rfl]⟩
    · intro hf
      have hl' : Provider.api.DNSRecords z (listFilter p) ps = (.ok [], ps) := by
        show Provider.DNSRecords z (listFilter p) ps = _
        unfold Provider.DNSRecords listFilter
        rw [hf]
      refine ⟨(Provider.CreateDNSRecord z (desiredRecord p) ps).2, ?_, rfl⟩
      rw [dnsCreateOrUpdate_create Provider.api p ps ps ps [] z hz' hl']
      rfl

/-- The in-memory create keeps a provider state well formed. -/
theorem Provider.WellFormed.create {s : Provider} (hwf : s.WellFormed) (zoneID : GoString)
    (rr : DNSRecord) : (Provider.CreateDNSRecord zoneID rr s).2.WellFormed := by
  obtain ⟨hlt, hnd⟩ := hwf
  constructor
  · intro r hr
    simp only [Provider.CreateDNSRecord, List.mem_append, List.mem_singleton] at hr
    rcases hr with hr | hr
    · exact Nat.lt_succ_of_lt (hlt r hr)
    · subst hr
      exact Nat.lt_succ_self _
  · simp only [Provider.CreateDNSRecord, List.map_append, List.map_cons, List.map_nil]
    rw [List.nodup_append]
    refine ⟨hnd, List.nodup_singleton _, ?_⟩
    intro a ha hb
    rw [List.mem_singleton] at hb
    rw [List.mem_map] at ha
    obtain ⟨r, hr, hra⟩ := ha
    have := hlt r hr
    omega

/-- C3: over the in-memory provider, in a well-formed state where the zone of
`p` resolves and no record has the name and type of `p`, a first
`dnsCreateOrUpdate p` succeeds with a create and leaves exactly one record with
that name and type, whose content is `p.Content`; a second `dnsCreateOrUpdate
p` succeeds with an update of that record (no create) and leaves the state as
it was after the first, so again exactly one such record, with content
`p.Content`. -/
theorem dnsCreateOrUpdate_idempotent (s : Provider) (p : dnsParams) (z : GoString)
    (hwf : s.WellFormed) (hz : (Provider.ZoneIDByName p.ZoneName s).1 = .ok z)
    (hnone : matchingRecords p s = []) :
    ∃ s1 : Provider,
      dnsCreateOrUpdate (traced Provider.api) p (s, []) =
        (none, (s1, [.ZoneIDByName p.ZoneName, .DNSRecords z (listFilter p),
          .CreateDNSRecord z (desiredRecord p)])) ∧
      matchingRecords p s1 = [{ desiredRecord p with ID := s.nextID, ZoneID := z }] ∧
      (matchingRecords p s1).map (fun r => r.Content) = [p.Content] ∧
      dnsCreateOrUpdate (traced Provider.api) p (s1, []) =
        (none, (s1, [.ZoneIDByName p.ZoneName, .DNSRecords z (listFilter p),
          .UpdateDNSRecord z s.nextID (desiredRecord p)])) := by
  have hz' := Provider.api_ZoneIDByName p.ZoneName z s hz
  -- no record of the zone matches either
  have hfilter : s.records.filter (recordMatches z p.Name p.Type_) = [] := by
    rw [List.filter_eq_nil_iff]
    intro r hr hm
    have hno : r ∉ matchingRecords p s := by rw [hnone]; exact List.not_mem_nil r
    apply hno
    unfold matchingRecords
    rw [List.mem_filter]
    refine ⟨hr, ?_⟩
    simp only [recordMatches, Bool.and_eq_true, beq_iff_eq] at hm
    simp [hm.1.2, hm.2]
  have hl : Provider.api.DNSRecords z (listFilter p) s = (.ok [], s) := by
    show Provider.DNSRecords z (listFilter p) s = _
    unfold Provider.DNSRecords listFilter
    rw [hfilter]
  let new : DNSRecord := { desiredRecord p with ID := s.nextID, ZoneID := z }
  let s1 : Provider := (Provider.CreateDNSRecord z (desiredRecord p) s).2
  have hs1 : s1.records = s.records ++ [new] := rfl
  have hwf1 : s1.WellFormed := hwf.create z (desiredRecord p)
  have hm1 : matchingRecords p s1 = [new] := by
    unfold matchingRecords at hnone ⊢
    rw [hs1, List.filter_append, hnone]
    simp [new, desiredRecord]
  have hz1 : Provider.api.ZoneIDByName p.ZoneName s1 = (.ok z, s1) :=
    Provider.api_ZoneIDByName p.ZoneName z s1
      (by rw [Provider.ZoneIDByName_zones p.ZoneName s s1 rfl, hz])
  have hl1 : Provider.api.DNSRecords z (listFilter p) s1 = (.ok (new :: []), s1) := by
    show Provider.DNSRecords z (listFilter p) s1 = _
    unfold Provider.DNSRecords listFilter
    rw [hs1, List.filter_append, hfilter]
    simp [new, desiredRecord, recordMatches]
  have hmem : new ∈ s1.records := by
    rw [hs1]
    exact List.mem_append_right _ (List.mem_singleton_self _)
  have hupd : Provider.api.UpdateDNSRecord z new.ID (desiredRecord p) s1 = (none, s1) := by
    show Provider.UpdateDNSRecord z new.ID (desiredRecord p) s1 = _
    rw [Provider.UpdateDNSRecord_first s1 hwf1 z new (desiredRecord p) hmem rfl]
    have hid : s1.records.map (fun r => if r = new then applyUpdate (desiredRecord p) new else r)
        = s1.records := by
      conv_rhs => rw [← List.map_id s1.records]
      apply List.map_congr_left
      intro r _
      by_cases h : r = new
      · rw [if_pos h, h]
        rfl
      · rw [if_neg h]
        rfl
    rw [hid]
  refine ⟨s1, ?_, hm1, ?_, ?_⟩
  · rw [dnsCreateOrUpdate_create Provider.api p s s s [] z hz' hl]
    rfl
  · rw [hm1]
    rfl
  · rw [dnsCreateOrUpdate_update Provider.api p s1 s1 s1 [] z new [] hz1 hl1, hupd]
    rfl

/-! ## Theorems: orchestration -/

/-- Over a client that records its calls, `dnsCreateOrUpdate` adds calls to
the log, the first of which is the zone lookup. -/
theorem dnsCreateOrUpdate_log {σ : Type} (api : API σ) (p : dnsParams) (s : σ)
    (log : List Call) :
    ∃ extra, (dnsCreateOrUpdate (traced api) p (s, log)).2.2 =
      log ++ Call.ZoneIDByName p.ZoneName :: extra := by
  rcases hz : api.ZoneIDByName p.ZoneName s with ⟨e | zoneID, s1⟩
  · exact ⟨[], by simp [dnsCreateOrUpdate, traced, hz]⟩
  · rcases hl : api.DNSRecords zoneID { Name := p.Name, Type_ := p.Type_ } s1 with
      ⟨e | records, s2⟩
    · exact ⟨_, by simp [dnsCreateOrUpdate, traced, hz, hl]; rfl⟩
    · cases records with
      | nil =>
        rw [dnsCreateOrUpdate_create api p s s1 s2 log zoneID hz hl]
        exact ⟨_, rfl⟩
      | cons first rest =>
        rw [dnsCreateOrUpdate_update api p s s1 s2 log zoneID first rest hz hl]
        exact ⟨_, rfl⟩

/-- The retry loop only adds to the log when the operation only adds to it. -/
theorem retryLoop_log {σ ε : Type} (f : Operation (σ × List Call) ε)
    (hf : ∀ s log, log <+: (f (s, log)).2.2) (attempts : Nat) :
    ∀ (rem n : Nat) (errorLog : List (Option ε)) (s : σ) (log : List Call),
      log <+: (retryLoop f attempts rem n errorLog (s, log)).2.2 := by
  intro rem
  induction rem with
  | zero =>
    intro n errorLog s log
    exact List.prefix_refl _
  | succ rem ih =>
    intro n errorLog s log
    unfold retryLoop
    by_cases hn : n < attempts
    · rw [if_neg (not_not.mpr hn)]
      have hfs := hf s log
      rcases hfr : f (s, log) with ⟨_ | e, ⟨s', log'⟩⟩
      · rw [hfr] at hfs
        exact hfs
      · rw [hfr] at hfs
        simp only
        split
        · exact hfs
        · exact List.IsPrefix.trans hfs (ih _ _ _ _)
    · rw [if_pos hn]

/-- The log after `failTrying f` starts with the log after the first call of
`f`. -/
theorem failTrying_log {σ ε : Type} (f : Operation (σ × List Call) ε)
    (hf : ∀ s log, log <+: (f (s, log)).2.2) (s : σ) (log : List Call) :
    (f (s, log)).2.2 <+: (failTrying f (s, log)).2.2 := by
  rw [failTrying_eq, retryIt_eq]
  unfold retryDo _retryAttempts retryLoop
  rw [if_neg (by decide)]
  rcases hfr : f (s, log) with ⟨_ | e, ⟨s', log'⟩⟩
  · exact List.prefix_refl _
  · simp only
    rw [if_neg (by decide)]
    exact retryLoop_log f hf 3 _ _ _ _ _

/-- What the tasks of `main` do over a client that records its calls, when
`dns.proxied` has its default: they run as `TasksRun` says, one outcome per
domain; the log is only added to, and the zone of every domain is looked up. -/
theorem runTasks_spec {σ : Type} (api : API σ) (conf : config) (content : GoString) (g : Bool)
    (hg : conf.DNS.Proxied = some g) (ds : List domainConfig) :
    ∀ (s : σ) (log : List Call), ∃ outcomes s' log',
      runTasks (traced api) conf content ds (s, log) = some (outcomes, (s', log')) ∧
      log <+: log' ∧
      (∀ d ∈ ds, Call.ZoneIDByName d.Zone ∈ log') ∧
      outcomes.length = ds.length ∧
      TasksRun api conf content ds (s, log) outcomes (s', log') := by
  induction ds with
  | nil =>
    intro s log
    exact ⟨[], s, log, rfl, List.prefix_refl _, by simp, rfl, rfl, rfl⟩
  | cons d ds ih =>
    intro s log
    obtain ⟨p, hp, htask, -, -⟩ := proxied_override_resolution_aux conf content d g hg
    have hmono : ∀ s log, log <+: (dnsCreateOrUpdate (traced api) p (s, log)).2.2 := by
      intro s log
      obtain ⟨extra, he⟩ := dnsCreateOrUpdate_log api p s log
      rw [he]
      exact List.prefix_append _ _
    have hfirst := failTrying_log (dnsCreateOrUpdate (traced api) p) hmono s log
    obtain ⟨extra, he⟩ := dnsCreateOrUpdate_log api p s log
    rw [he] at hfirst
    rcases hft : failTrying (dnsCreateOrUpdate (traced api) p) (s, log) with ⟨o, ⟨s1, log1⟩⟩
    rw [hft] at hfirst
    obtain ⟨outcomes, s', log', hrun, hpre, hall, hlen, hrel⟩ := ih s1 log1
    have hsub : log ++ Call.ZoneIDByName p.ZoneName :: extra <+: log' :=
      List.IsPrefix.trans hfirst hpre
    have hzone : p.ZoneName = d.Zone ∧ p.Name = d.Domain := by
      simp only [domainParams] at hp
      split at hp
      · exact Option.noConfusion hp
      · rw [← Option.some.inj hp]
        exact ⟨rfl, rfl⟩
    obtain ⟨t, ht⟩ := hfirst
    refine ⟨o :: outcomes, s', log', ?_, ?_, ?_, ?_, ?_⟩
    · simp only [runTasks, domainTask, hp, hft, hrun]
    · exact List.IsPrefix.trans (List.prefix_append _ _) hsub
    · intro d' hd'
      rcases List.mem_cons.mp hd' with h | h
      · subst h
        apply hsub.subset
        rw [← hzone.1]
        simp
      · exact hall d' h
    · simp [hlen]
    · refine ⟨p, o, (s1, log1), extra ++ t, outcomes, hp, hzone.1, hzone.2, hft, ?_, rfl, hrel⟩
      rw [← ht, ← hzone.1]
      simp

/-- The final `select` of `main` exits with 1 exactly when some task failed. -/
theorem exitStatus_eq_one_iff {ε : Type} (outcomes : List (Option ε)) :
    exitStatus (errsChannel outcomes) = 1 ↔ ∃ o ∈ outcomes, o ≠ none := by
  induction outcomes with
  | nil => simp [exitStatus, errsChannel]
  | cons o os ih =>
    cases o with
    | none =>
      have h : errsChannel (none :: os) = errsChannel os := rfl
      rw [h, ih]
      simp
    | some e => simp [exitStatus, errsChannel]

/-- The final `select` of `main` exits with 0 or with 1. -/
theorem exitStatus_cases {ε : Type} (errs : List ε) :
    exitStatus errs = 0 ∨ exitStatus errs = 1 := by
  cases errs with
  | nil => exact Or.inl rfl
  | cons e es => exact Or.inr rfl

/-- C8: with `dns.proxied` at its default, the part of `main` that sets the
DNS records, run over a client that records its calls, ends with an exit
status and one outcome per configured domain. The tasks run as `TasksRun`
says: every domain's retried reconciliation (`failTrying` of
`dnsCreateOrUpdate` on the argument `main` builds for the domain) is run,
whatever the outcomes of the domains before it, from the provider state and
call log the previous domain left; its result is the outcome recorded for the
domain, and its calls, starting with the lookup of the domain's zone, are added
to the log. The exit status is 1 exactly when some outcome is an error and 0
exactly when every outcome is a success. The tasks run one after the other, in
the order of the configuration. -/
theorem failure_isolation {σ : Type} (api : API σ) (conf : config) (content : GoString)
    (s : σ) (g : Bool) (hg : conf.DNS.Proxied = some g) :
    ∃ (status : Nat) (outcomes : List (Option (List (Option DNSError)))) (s' : σ)
        (log : List Call),
      setDNSRecords (traced api) conf content (s, []) = some (status, outcomes, (s', log)) ∧
      TasksRun api conf content conf.DNS.Domains (s, []) outcomes (s', log) ∧
      outcomes.length = conf.DNS.Domains.length ∧
      (∀ d ∈ conf.DNS.Domains, Call.ZoneIDByName d.Zone ∈ log) ∧
      (status = 1 ↔ ∃ o ∈ outcomes, o ≠ none) ∧
      (status = 0 ↔ ∀ o ∈ outcomes, o = none) := by
  obtain ⟨outcomes, s', log, hrun, -, hall, hlen, hrel⟩ :=
    runTasks_spec api conf content g hg conf.DNS.Domains s []
  refine ⟨exitStatus (errsChannel outcomes), outcomes, s', log, ?_, hrel, hlen,
    hall, exitStatus_eq_one_iff outcomes, ?_⟩
  · simp only [setDNSRecords, hrun]
  · have h1 := exitStatus_eq_one_iff outcomes
    constructor
    · intro h0 o ho
      by_contra hne
      have := h1.mpr ⟨o, ho, hne⟩
      omega
    · intro hall0
      rcases exitStatus_cases (errsChannel outcomes) with h | h
      · exact h
      · obtain ⟨o, ho, hne⟩ := h1.mp h
        exact absurd (hall0 o ho) hne

/-- Witness of C8. Two domains, the first of which fails on every attempt (its
zone is unknown to the provider) and the second of which succeeds: the first
is attempted three times, the second is reconciled (its record is created) and
the exit status is 1. Two domains in one zone, both succeeding: both records
are created and the exit status is 0. -/
theorem failure_isolation_witness :
    (∃ (status : Nat) (outcomes : List (Option (List (Option DNSError)))) (s' : Provider)
        (log : List Call),
      setDNSRecords (traced Provider.api) twoDomainConfig "93.184.216.34".toList
          (emptyProvider, []) = some (status, outcomes, (s', log)) ∧
      TasksRun Provider.api twoDomainConfig "93.184.216.34".toList
        twoDomainConfig.DNS.Domains (emptyProvider, []) outcomes (s', log) ∧
      outcomes.length = twoDomainConfig.DNS.Domains.length ∧
      (∀ d ∈ twoDomainConfig.DNS.Domains, Call.ZoneIDByName d.Zone ∈ log) ∧
      (status = 1 ↔ ∃ o ∈ outcomes, o ≠ none) ∧
      (status = 0 ↔ ∀ o ∈ outcomes, o = none)) ∧
    setDNSRecords (traced Provider.api) twoDomainConfig "93.184.216.34".toList
        (emptyProvider, []) =
      some (1,
        [some [some (.queryingZone "missing.org".toList "zone could not be found".toList),
               some (.queryingZone "missing.org".toList "zone could not be found".toList),
               some (.queryingZone "missing.org".toList "zone could not be found".toList)],
         none],
        ({ zones := [("example.com".toList, "z1".toList)]
           records := [{ ID := 0, ZoneID := "z1".toList, Name := "ddns.example.com".toList,
                         Type_ := "A".toList, Content := "93.184.216.34".toList, TTL := 60,
                         Proxied := false }]
           nextID := 1 },
         [.ZoneIDByName "missing.org".toList, .ZoneIDByName "missing.org".toList,
          .ZoneIDByName "missing.org".toList, .ZoneIDByName "example.com".toList,
          .DNSRecords "z1".toList (listFilter exampleParams),
          .CreateDNSRecord "z1".toList (desiredRecord exampleParams)])) ∧
    setDNSRecords (traced Provider.api) sharedZoneConfig "93.184.216.34".toList
        (emptyProvider, []) =
      some (0, [none, none],
        ({ zones := [("example.com".toList, "z1".toList)]
           records :=
             [{ ID := 0, ZoneID := "z1".toList, Name := "a.example.com".toList,
                Type_ := "A".toList, Content := "93.184.216.34".toList, TTL := 60,
                Proxied := false },
              { ID := 1, ZoneID := "z1".toList, Name := "b.example.com".toList,
                Type_ := "A".toList, Content := "93.184.216.34".toList, TTL := 120,
                Proxied := true }]
           nextID := 2 },
         [.ZoneIDByName "example.com".toList,
          .DNSRecords "z1".toList { Name := "a.example.com".toList, Type_ := "A".toList },
          .CreateDNSRecord "z1".toList
            { Name := "a.example.com".toList, Type_ := "A".toList,
              Content := "93.184.216.34".toList, TTL := 60, Proxied := false },
          .ZoneIDByName "example.com".toList,
          .DNSRecords "z1".toList { Name := "b.example.com".toList, Type_ := "A".toList },
          .CreateDNSRecord "z1".toList
            { Name := "b.example.com".toList, Type_ := "A".toList,
              Content := "93.184.216.34".toList, TTL := 120, Proxied := true }])) :=
  ⟨failure_isolation Provider.api twoDomainConfig "93.184.216.34".toList emptyProvider false rfl,
    by rfl, by rfl⟩

/-- Witness of C3: on a provider without a record for `ddns.example.com`, the
first call creates the record and the second updates it; one record either
way. -/
theorem dnsCreateOrUpdate_idempotent_witness :
    (∃ s1 : Provider,
      dnsCreateOrUpdate (traced Provider.api) exampleParams (emptyProvider, []) =
        (none, (s1, [.ZoneIDByName exampleParams.ZoneName,
          .DNSRecords "z1".toList (listFilter exampleParams),
          .CreateDNSRecord "z1".toList (desiredRecord exampleParams)])) ∧
      matchingRecords exampleParams s1 =
        [{ desiredRecord exampleParams with ID := emptyProvider.nextID, ZoneID := "z1".toList }] ∧
      (matchingRecords exampleParams s1).map (fun r => r.Content) = [exampleParams.Content] ∧
      dnsCreateOrUpdate (traced Provider.api) exampleParams (s1, []) =
        (none, (s1, [.ZoneIDByName exampleParams.ZoneName,
          .DNSRecords "z1".toList (listFilter exampleParams),
          .UpdateDNSRecord "z1".toList emptyProvider.nextID (desiredRecord exampleParams)]))) ∧
    (dnsCreateOrUpdate Provider.api exampleParams
        (dnsCreateOrUpdate Provider.api exampleParams emptyProvider).2).2.records =
      [{ ID := 0, ZoneID := "z1".toList, Name := "ddns.example.com".toList, Type_ := "A".toList,
         Content := "93.184.216.34".toList, TTL := 60, Proxied := false }] :=
  ⟨dnsCreateOrUpdate_idempotent emptyProvider exampleParams "z1".toList
      ⟨by decide, by decide⟩ (by decide) (by decide),
    by decide⟩

/-- Witness of C4: with two records for `ddns.example.com`, the update goes to
the first (identifier 0); the duplicate and the unrelated record stay as they
were. -/
theorem dnsCreateOrUpdate_update_first_or_create_witness :
    (dnsCreateOrUpdate (traced Provider.api) exampleParams (duplicateProvider, [])).2.2 =
        [.ZoneIDByName exampleParams.ZoneName,
          .DNSRecords "z1".toList (listFilter exampleParams),
          .UpdateDNSRecord "z1".toList 0 (desiredRecord exampleParams)] ∧
    (dnsCreateOrUpdate Provider.api exampleParams duplicateProvider).2.records =
      [{ ID := 0, ZoneID := "z1".toList, Name := "ddns.example.com".toList, Type_ := "A".toList,
         Content := "93.184.216.34".toList, TTL := 60, Proxied := false },
       { ID := 1, ZoneID := "z1".toList, Name := "ddns.example.com".toList, Type_ := "A".toList,
         Content := "198.51.100.2".toList, TTL := 120, Proxied := false },
       { ID := 2, ZoneID := "z1".toList, Name := "www.example.com".toList, Type_ := "A".toList,
         Content := "198.51.100.3".toList, TTL := 300, Proxied := false }] :=
  ⟨(dnsCreateOrUpdate_update_first_or_create Provider.api exampleParams duplicateProvider
      duplicateProvider duplicateProvider "z1".toList
      (duplicateProvider.records.filter
        (recordMatches "z1".toList exampleParams.Name exampleParams.Type_))
      (by decide) (by decide)).1
      { ID := 0, ZoneID := "z1".toList, Name := "ddns.example.com".toList, Type_ := "A".toList,
        Content := "198.51.100.1".toList, TTL := 1, Proxied := true }
      [{ ID := 1, ZoneID := "z1".toList, Name := "ddns.example.com".toList, Type_ := "A".toList,
         Content := "198.51.100.2".toList, TTL := 120, Proxied := false }]
      (by decide),
    by decide⟩

end Cloudfloat
